import Mathlib

/-!
Shallow embedding of the pattern-lock counting program (src/src/main.rs).

A partial pattern state is a flat index `last_swiped + 9 * visited_mask`,
exactly as in the source.  The source's flat array
`States([u32; 9 * (1 + (1 << 9))])` of counters is modelled as a list of
`1 + (1 << 9) = 513` rows (one per visited mask, the `base` of an index)
of 9 counters each (one per last swiped point): the counter of flat index
`i` lives at row `i / 9`, column `i % 9`.  All counters stay far below
`2 ^ 32` throughout the sweep (the largest total is `140704`), so `Nat`
counters agree with the source's `u32`.

The push-style transition `next_step` is the direct embedding of
`Step::next_step`.  For concrete evaluation inside the kernel the
structural `next_step_fast` computes every destination counter from its
at most nine predecessor states, pairing rows at distance `2 ^ c` by
list alignment; `next_step_eq_fast` proves the two agree on every
well-shaped distribution.
-/

namespace CodePin

/-- `Position::all_positions_count`: the size of the state array,
`9 * (1 + (1 << 9)) = 4617`. -/
def all_positions_count : Nat := 9 * (1 + (1 <<< 9))

/-- The number of rows of the two-dimensional model of the state array:
one row per visited mask, `1 + (1 << 9) = 513`. -/
def rowsCount : Nat := 1 + (1 <<< 9)

/-- `Position::base`: the visited-mask component of an index. -/
def base (i : Nat) : Nat := i / 9

/-- `Position::last_swiped`: the last-swiped-point component of an index. -/
def last_swiped (i : Nat) : Nat := i % 9

/-- `Position::index_of_point`: `9 * (1 << point)`. -/
def index_of_point (point : Nat) : Nat := 9 * (1 <<< point)

/-- `Position::from_point`: the length-1 state that has swiped only
`point`. -/
def from_point (point : Nat) : Nat := index_of_point point + point

/-- `Position::is_swiped`: bit `point` of the visited mask. -/
def is_swiped (i : Nat) (point : Nat) : Bool := (base i &&& (1 <<< point)) != 0

/-- The "must pass through an intermediate point" table of
`Position::swipe_to`: for a constrained ordered pair
`(last_swiped, next)` the intermediate point whose guard is checked,
`none` for every unconstrained pair. -/
def through : Nat → Nat → Option Nat
  | 0, 2 => some 1
  | 0, 8 => some 4
  | 0, 6 => some 3
  | 2, 0 => some 1
  | 2, 6 => some 4
  | 2, 8 => some 5
  | 6, 0 => some 3
  | 6, 2 => some 4
  | 6, 8 => some 7
  | 8, 6 => some 7
  | 8, 0 => some 4
  | 8, 2 => some 5
  | 1, 7 => some 4
  | 7, 1 => some 4
  | 3, 5 => some 4
  | 5, 3 => some 4
  | _, _ => none

/-- The guard part of the `match` in `Position::swipe_to`: an arm whose
pattern matches and whose guard `!self.is_swiped(m)` holds returns
`None`. -/
def blocked (i : Nat) (next : Nat) : Bool :=
  match through (last_swiped i) next with
  | some m => !(is_swiped i m)
  | none => false

/-- `Position::swipe_to`: `None` if `next` was already swiped, `None` if
the move passes through an unswiped intermediate point, otherwise the
extended state `base * 9 + index_of_point next + next`. -/
def swipe_to (i : Nat) (next : Nat) : Option Nat :=
  if is_swiped i next then none
  else if blocked i next then none
  else some (base i * 9 + index_of_point next + next)

/-- Fuel-based helper of `count_ones`: structural recursion on the fuel
(`n` itself suffices as fuel, see `count_ones_eq`). -/
def count_ones_fuel : Nat → Nat → Nat
  | 0, _ => 0
  | _ + 1, 0 => 0
  | fuel + 1, n + 1 => (n + 1) % 2 + count_ones_fuel fuel ((n + 1) / 2)

/-- `u32::count_ones` on `Nat`: the binary population count. -/
def count_ones (n : Nat) : Nat := count_ones_fuel n n

/-- `Position::swiped_points`: population count of the visited mask. -/
def swiped_points (i : Nat) : Nat := count_ones (base i)

/-- The distribution type: 513 rows of 9 counters, the two-dimensional
model of the source's flat `States` array. -/
abbrev Dist : Type := List (List Nat)

/-- `States::default()`: the all-zero distribution. -/
def statesDefault : Dist := List.replicate rowsCount (List.replicate 9 0)

/-- Read the counter of flat index `i` (`States`'s `Index` impl). -/
def entry (d : Dist) (i : Nat) : Nat :=
  (d.getD (base i) []).getD (last_swiped i) 0

/-- Write the counter of flat index `i` (`States`'s `IndexMut` impl). -/
def setEntry (d : Dist) (i : Nat) (v : Nat) : Dist :=
  d.set (base i) ((d.getD (base i) []).set (last_swiped i) v)

/-- `possibilities[position] += count`. -/
def addEntry (d : Dist) (i : Nat) (v : Nat) : Dist :=
  setEntry d i (entry d i + v)

/-- `Step::init()`: a 1 at each of the nine single-point states. -/
def init : Dist :=
  (List.range 9).foldl (fun d i => setEntry d (from_point i) 1) statesDefault

/-- `Step::current_possibilities`: the sum of all counters. -/
def current_possibilities (d : Dist) : Nat := (d.map List.sum).sum

/-- The total number of counters of a distribution (the length of the
source's flat array). -/
def num_entries (d : Dist) : Nat := (d.map List.length).sum

/-- `Step::validate` as a boolean predicate: every nonzero counter sits
at a flat index whose visited mask has population count `step` (the
source asserts exactly this for every index and aborts otherwise). -/
def validate (d : Dist) (step : Nat) : Bool :=
  (List.range all_positions_count).all fun i =>
    entry d i == 0 || swiped_points i == step

/-- One iteration of the inner loop of `Step::next_step`: if the swipe
to candidate `c` succeeds, add `count` to the destination counter. -/
def pushBody (i count : Nat) (a : Dist) (c : Nat) : Dist :=
  match swipe_to i c with
  | some j => addEntry a j count
  | none => a

/-- The inner loop of `Step::next_step`: try the nine one-point
extensions of state `i` and add `count` to the destination counter of
every successful one. -/
def push1 (acc : Dist) (i : Nat) (count : Nat) : Dist :=
  (List.range 9).foldl (pushBody i count) acc

/-- One iteration of the outer loop of `Step::next_step`: indices with a
zero counter are skipped. -/
def nsBody (d : Dist) (acc : Dist) (i : Nat) : Dist :=
  if entry d i = 0 then acc else push1 acc i (entry d i)

/-- `Step::next_step`: enumerate all flat indices in order; every index
with a nonzero counter pushes its counter onto its successful one-point
extensions. -/
def next_step (d : Dist) : Dist :=
  (List.range all_positions_count).foldl (nsBody d) statesDefault

/-- The sweep of `main`: `stepDist k` is the distribution of patterns of
length `k + 1`, that is `k` applications of `next_step` to `init`. -/
def stepDist : Nat → Dist
  | 0 => init
  | k + 1 => next_step (stepDist k)

/-- All-zero row, used to abbreviate the certificate distributions. -/
def z9 : List Nat := [0, 0, 0, 0, 0, 0, 0, 0, 0]

/-- The nine candidate points, as a literal list (equal to `List.range 9`). -/
def points : List Nat := [0, 1, 2, 3, 4, 5, 6, 7, 8]

/-- The 9-bit binary decomposition of every row index `m < 513`:
entry `m` is the list of bits `m >>> t &&& 1` for `t = 0..8`. -/
def bitsTable : List (List Bool) :=
[[false,false,false,false,false,false,false,false,false],[true,false,false,false,false,false,false,false,false],[false,true,false,false,false,false,false,false,false],[true,true,false,false,false,false,false,false,false],[false,false,true,false,false,false,false,false,false],[true,false,true,false,false,false,false,false,false],
[false,true,true,false,false,false,false,false,false],[true,true,true,false,false,false,false,false,false],[false,false,false,true,false,false,false,false,false],[true,false,false,true,false,false,false,false,false],[false,true,false,true,false,false,false,false,false],[true,true,false,true,false,false,false,false,false],
[false,false,true,true,false,false,false,false,false],[true,false,true,true,false,false,false,false,false],[false,true,true,true,false,false,false,false,false],[true,true,true,true,false,false,false,false,false],[false,false,false,false,true,false,false,false,false],[true,false,false,false,true,false,false,false,false],
[false,true,false,false,true,false,false,false,false],[true,true,false,false,true,false,false,false,false],[false,false,true,false,true,false,false,false,false],[true,false,true,false,true,false,false,false,false],[false,true,true,false,true,false,false,false,false],[true,true,true,false,true,false,false,false,false],
[false,false,false,true,true,false,false,false,false],[true,false,false,true,true,false,false,false,false],[false,true,false,true,true,false,false,false,false],[true,true,false,true,true,false,false,false,false],[false,false,true,true,true,false,false,false,false],[true,false,true,true,true,false,false,false,false],
[false,true,true,true,true,false,false,false,false],[true,true,true,true,true,false,false,false,false],[false,false,false,false,false,true,false,false,false],[true,false,false,false,false,true,false,false,false],[false,true,false,false,false,true,false,false,false],[true,true,false,false,false,true,false,false,false],
[false,false,true,false,false,true,false,false,false],[true,false,true,false,false,true,false,false,false],[false,true,true,false,false,true,false,false,false],[true,true,true,false,false,true,false,false,false],[false,false,false,true,false,true,false,false,false],[true,false,false,true,false,true,false,false,false],
[false,true,false,true,false,true,false,false,false],[true,true,false,true,false,true,false,false,false],[false,false,true,true,false,true,false,false,false],[true,false,true,true,false,true,false,false,false],[false,true,true,true,false,true,false,false,false],[true,true,true,true,false,true,false,false,false],
[false,false,false,false,true,true,false,false,false],[true,false,false,false,true,true,false,false,false],[false,true,false,false,true,true,false,false,false],[true,true,false,false,true,true,false,false,false],[false,false,true,false,true,true,false,false,false],[true,false,true,false,true,true,false,false,false],
[false,true,true,false,true,true,false,false,false],[true,true,true,false,true,true,false,false,false],[false,false,false,true,true,true,false,false,false],[true,false,false,true,true,true,false,false,false],[false,true,false,true,true,true,false,false,false],[true,true,false,true,true,true,false,false,false],
[false,false,true,true,true,true,false,false,false],[true,false,true,true,true,true,false,false,false],[false,true,true,true,true,true,false,false,false],[true,true,true,true,true,true,false,false,false],[false,false,false,false,false,false,true,false,false],[true,false,false,false,false,false,true,false,false],
[false,true,false,false,false,false,true,false,false],[true,true,false,false,false,false,true,false,false],[false,false,true,false,false,false,true,false,false],[true,false,true,false,false,false,true,false,false],[false,true,true,false,false,false,true,false,false],[true,true,true,false,false,false,true,false,false],
[false,false,false,true,false,false,true,false,false],[true,false,false,true,false,false,true,false,false],[false,true,false,true,false,false,true,false,false],[true,true,false,true,false,false,true,false,false],[false,false,true,true,false,false,true,false,false],[true,false,true,true,false,false,true,false,false],
[false,true,true,true,false,false,true,false,false],[true,true,true,true,false,false,true,false,false],[false,false,false,false,true,false,true,false,false],[true,false,false,false,true,false,true,false,false],[false,true,false,false,true,false,true,false,false],[true,true,false,false,true,false,true,false,false],
[false,false,true,false,true,false,true,false,false],[true,false,true,false,true,false,true,false,false],[false,true,true,false,true,false,true,false,false],[true,true,true,false,true,false,true,false,false],[false,false,false,true,true,false,true,false,false],[true,false,false,true,true,false,true,false,false],
[false,true,false,true,true,false,true,false,false],[true,true,false,true,true,false,true,false,false],[false,false,true,true,true,false,true,false,false],[true,false,true,true,true,false,true,false,false],[false,true,true,true,true,false,true,false,false],[true,true,true,true,true,false,true,false,false],
[false,false,false,false,false,true,true,false,false],[true,false,false,false,false,true,true,false,false],[false,true,false,false,false,true,true,false,false],[true,true,false,false,false,true,true,false,false],[false,false,true,false,false,true,true,false,false],[true,false,true,false,false,true,true,false,false],
[false,true,true,false,false,true,true,false,false],[true,true,true,false,false,true,true,false,false],[false,false,false,true,false,true,true,false,false],[true,false,false,true,false,true,true,false,false],[false,true,false,true,false,true,true,false,false],[true,true,false,true,false,true,true,false,false],
[false,false,true,true,false,true,true,false,false],[true,false,true,true,false,true,true,false,false],[false,true,true,true,false,true,true,false,false],[true,true,true,true,false,true,true,false,false],[false,false,false,false,true,true,true,false,false],[true,false,false,false,true,true,true,false,false],
[false,true,false,false,true,true,true,false,false],[true,true,false,false,true,true,true,false,false],[false,false,true,false,true,true,true,false,false],[true,false,true,false,true,true,true,false,false],[false,true,true,false,true,true,true,false,false],[true,true,true,false,true,true,true,false,false],
[false,false,false,true,true,true,true,false,false],[true,false,false,true,true,true,true,false,false],[false,true,false,true,true,true,true,false,false],[true,true,false,true,true,true,true,false,false],[false,false,true,true,true,true,true,false,false],[true,false,true,true,true,true,true,false,false],
[false,true,true,true,true,true,true,false,false],[true,true,true,true,true,true,true,false,false],[false,false,false,false,false,false,false,true,false],[true,false,false,false,false,false,false,true,false],[false,true,false,false,false,false,false,true,false],[true,true,false,false,false,false,false,true,false],
[false,false,true,false,false,false,false,true,false],[true,false,true,false,false,false,false,true,false],[false,true,true,false,false,false,false,true,false],[true,true,true,false,false,false,false,true,false],[false,false,false,true,false,false,false,true,false],[true,false,false,true,false,false,false,true,false],
[false,true,false,true,false,false,false,true,false],[true,true,false,true,false,false,false,true,false],[false,false,true,true,false,false,false,true,false],[true,false,true,true,false,false,false,true,false],[false,true,true,true,false,false,false,true,false],[true,true,true,true,false,false,false,true,false],
[false,false,false,false,true,false,false,true,false],[true,false,false,false,true,false,false,true,false],[false,true,false,false,true,false,false,true,false],[true,true,false,false,true,false,false,true,false],[false,false,true,false,true,false,false,true,false],[true,false,true,false,true,false,false,true,false],
[false,true,true,false,true,false,false,true,false],[true,true,true,false,true,false,false,true,false],[false,false,false,true,true,false,false,true,false],[true,false,false,true,true,false,false,true,false],[false,true,false,true,true,false,false,true,false],[true,true,false,true,true,false,false,true,false],
[false,false,true,true,true,false,false,true,false],[true,false,true,true,true,false,false,true,false],[false,true,true,true,true,false,false,true,false],[true,true,true,true,true,false,false,true,false],[false,false,false,false,false,true,false,true,false],[true,false,false,false,false,true,false,true,false],
[false,true,false,false,false,true,false,true,false],[true,true,false,false,false,true,false,true,false],[false,false,true,false,false,true,false,true,false],[true,false,true,false,false,true,false,true,false],[false,true,true,false,false,true,false,true,false],[true,true,true,false,false,true,false,true,false],
[false,false,false,true,false,true,false,true,false],[true,false,false,true,false,true,false,true,false],[false,true,false,true,false,true,false,true,false],[true,true,false,true,false,true,false,true,false],[false,false,true,true,false,true,false,true,false],[true,false,true,true,false,true,false,true,false],
[false,true,true,true,false,true,false,true,false],[true,true,true,true,false,true,false,true,false],[false,false,false,false,true,true,false,true,false],[true,false,false,false,true,true,false,true,false],[false,true,false,false,true,true,false,true,false],[true,true,false,false,true,true,false,true,false],
[false,false,true,false,true,true,false,true,false],[true,false,true,false,true,true,false,true,false],[false,true,true,false,true,true,false,true,false],[true,true,true,false,true,true,false,true,false],[false,false,false,true,true,true,false,true,false],[true,false,false,true,true,true,false,true,false],
[false,true,false,true,true,true,false,true,false],[true,true,false,true,true,true,false,true,false],[false,false,true,true,true,true,false,true,false],[true,false,true,true,true,true,false,true,false],[false,true,true,true,true,true,false,true,false],[true,true,true,true,true,true,false,true,false],
[false,false,false,false,false,false,true,true,false],[true,false,false,false,false,false,true,true,false],[false,true,false,false,false,false,true,true,false],[true,true,false,false,false,false,true,true,false],[false,false,true,false,false,false,true,true,false],[true,false,true,false,false,false,true,true,false],
[false,true,true,false,false,false,true,true,false],[true,true,true,false,false,false,true,true,false],[false,false,false,true,false,false,true,true,false],[true,false,false,true,false,false,true,true,false],[false,true,false,true,false,false,true,true,false],[true,true,false,true,false,false,true,true,false],
[false,false,true,true,false,false,true,true,false],[true,false,true,true,false,false,true,true,false],[false,true,true,true,false,false,true,true,false],[true,true,true,true,false,false,true,true,false],[false,false,false,false,true,false,true,true,false],[true,false,false,false,true,false,true,true,false],
[false,true,false,false,true,false,true,true,false],[true,true,false,false,true,false,true,true,false],[false,false,true,false,true,false,true,true,false],[true,false,true,false,true,false,true,true,false],[false,true,true,false,true,false,true,true,false],[true,true,true,false,true,false,true,true,false],
[false,false,false,true,true,false,true,true,false],[true,false,false,true,true,false,true,true,false],[false,true,false,true,true,false,true,true,false],[true,true,false,true,true,false,true,true,false],[false,false,true,true,true,false,true,true,false],[true,false,true,true,true,false,true,true,false],
[false,true,true,true,true,false,true,true,false],[true,true,true,true,true,false,true,true,false],[false,false,false,false,false,true,true,true,false],[true,false,false,false,false,true,true,true,false],[false,true,false,false,false,true,true,true,false],[true,true,false,false,false,true,true,true,false],
[false,false,true,false,false,true,true,true,false],[true,false,true,false,false,true,true,true,false],[false,true,true,false,false,true,true,true,false],[true,true,true,false,false,true,true,true,false],[false,false,false,true,false,true,true,true,false],[true,false,false,true,false,true,true,true,false],
[false,true,false,true,false,true,true,true,false],[true,true,false,true,false,true,true,true,false],[false,false,true,true,false,true,true,true,false],[true,false,true,true,false,true,true,true,false],[false,true,true,true,false,true,true,true,false],[true,true,true,true,false,true,true,true,false],
[false,false,false,false,true,true,true,true,false],[true,false,false,false,true,true,true,true,false],[false,true,false,false,true,true,true,true,false],[true,true,false,false,true,true,true,true,false],[false,false,true,false,true,true,true,true,false],[true,false,true,false,true,true,true,true,false],
[false,true,true,false,true,true,true,true,false],[true,true,true,false,true,true,true,true,false],[false,false,false,true,true,true,true,true,false],[true,false,false,true,true,true,true,true,false],[false,true,false,true,true,true,true,true,false],[true,true,false,true,true,true,true,true,false],
[false,false,true,true,true,true,true,true,false],[true,false,true,true,true,true,true,true,false],[false,true,true,true,true,true,true,true,false],[true,true,true,true,true,true,true,true,false],[false,false,false,false,false,false,false,false,true],[true,false,false,false,false,false,false,false,true],
[false,true,false,false,false,false,false,false,true],[true,true,false,false,false,false,false,false,true],[false,false,true,false,false,false,false,false,true],[true,false,true,false,false,false,false,false,true],[false,true,true,false,false,false,false,false,true],[true,true,true,false,false,false,false,false,true],
[false,false,false,true,false,false,false,false,true],[true,false,false,true,false,false,false,false,true],[false,true,false,true,false,false,false,false,true],[true,true,false,true,false,false,false,false,true],[false,false,true,true,false,false,false,false,true],[true,false,true,true,false,false,false,false,true],
[false,true,true,true,false,false,false,false,true],[true,true,true,true,false,false,false,false,true],[false,false,false,false,true,false,false,false,true],[true,false,false,false,true,false,false,false,true],[false,true,false,false,true,false,false,false,true],[true,true,false,false,true,false,false,false,true],
[false,false,true,false,true,false,false,false,true],[true,false,true,false,true,false,false,false,true],[false,true,true,false,true,false,false,false,true],[true,true,true,false,true,false,false,false,true],[false,false,false,true,true,false,false,false,true],[true,false,false,true,true,false,false,false,true],
[false,true,false,true,true,false,false,false,true],[true,true,false,true,true,false,false,false,true],[false,false,true,true,true,false,false,false,true],[true,false,true,true,true,false,false,false,true],[false,true,true,true,true,false,false,false,true],[true,true,true,true,true,false,false,false,true],
[false,false,false,false,false,true,false,false,true],[true,false,false,false,false,true,false,false,true],[false,true,false,false,false,true,false,false,true],[true,true,false,false,false,true,false,false,true],[false,false,true,false,false,true,false,false,true],[true,false,true,false,false,true,false,false,true],
[false,true,true,false,false,true,false,false,true],[true,true,true,false,false,true,false,false,true],[false,false,false,true,false,true,false,false,true],[true,false,false,true,false,true,false,false,true],[false,true,false,true,false,true,false,false,true],[true,true,false,true,false,true,false,false,true],
[false,false,true,true,false,true,false,false,true],[true,false,true,true,false,true,false,false,true],[false,true,true,true,false,true,false,false,true],[true,true,true,true,false,true,false,false,true],[false,false,false,false,true,true,false,false,true],[true,false,false,false,true,true,false,false,true],
[false,true,false,false,true,true,false,false,true],[true,true,false,false,true,true,false,false,true],[false,false,true,false,true,true,false,false,true],[true,false,true,false,true,true,false,false,true],[false,true,true,false,true,true,false,false,true],[true,true,true,false,true,true,false,false,true],
[false,false,false,true,true,true,false,false,true],[true,false,false,true,true,true,false,false,true],[false,true,false,true,true,true,false,false,true],[true,true,false,true,true,true,false,false,true],[false,false,true,true,true,true,false,false,true],[true,false,true,true,true,true,false,false,true],
[false,true,true,true,true,true,false,false,true],[true,true,true,true,true,true,false,false,true],[false,false,false,false,false,false,true,false,true],[true,false,false,false,false,false,true,false,true],[false,true,false,false,false,false,true,false,true],[true,true,false,false,false,false,true,false,true],
[false,false,true,false,false,false,true,false,true],[true,false,true,false,false,false,true,false,true],[false,true,true,false,false,false,true,false,true],[true,true,true,false,false,false,true,false,true],[false,false,false,true,false,false,true,false,true],[true,false,false,true,false,false,true,false,true],
[false,true,false,true,false,false,true,false,true],[true,true,false,true,false,false,true,false,true],[false,false,true,true,false,false,true,false,true],[true,false,true,true,false,false,true,false,true],[false,true,true,true,false,false,true,false,true],[true,true,true,true,false,false,true,false,true],
[false,false,false,false,true,false,true,false,true],[true,false,false,false,true,false,true,false,true],[false,true,false,false,true,false,true,false,true],[true,true,false,false,true,false,true,false,true],[false,false,true,false,true,false,true,false,true],[true,false,true,false,true,false,true,false,true],
[false,true,true,false,true,false,true,false,true],[true,true,true,false,true,false,true,false,true],[false,false,false,true,true,false,true,false,true],[true,false,false,true,true,false,true,false,true],[false,true,false,true,true,false,true,false,true],[true,true,false,true,true,false,true,false,true],
[false,false,true,true,true,false,true,false,true],[true,false,true,true,true,false,true,false,true],[false,true,true,true,true,false,true,false,true],[true,true,true,true,true,false,true,false,true],[false,false,false,false,false,true,true,false,true],[true,false,false,false,false,true,true,false,true],
[false,true,false,false,false,true,true,false,true],[true,true,false,false,false,true,true,false,true],[false,false,true,false,false,true,true,false,true],[true,false,true,false,false,true,true,false,true],[false,true,true,false,false,true,true,false,true],[true,true,true,false,false,true,true,false,true],
[false,false,false,true,false,true,true,false,true],[true,false,false,true,false,true,true,false,true],[false,true,false,true,false,true,true,false,true],[true,true,false,true,false,true,true,false,true],[false,false,true,true,false,true,true,false,true],[true,false,true,true,false,true,true,false,true],
[false,true,true,true,false,true,true,false,true],[true,true,true,true,false,true,true,false,true],[false,false,false,false,true,true,true,false,true],[true,false,false,false,true,true,true,false,true],[false,true,false,false,true,true,true,false,true],[true,true,false,false,true,true,true,false,true],
[false,false,true,false,true,true,true,false,true],[true,false,true,false,true,true,true,false,true],[false,true,true,false,true,true,true,false,true],[true,true,true,false,true,true,true,false,true],[false,false,false,true,true,true,true,false,true],[true,false,false,true,true,true,true,false,true],
[false,true,false,true,true,true,true,false,true],[true,true,false,true,true,true,true,false,true],[false,false,true,true,true,true,true,false,true],[true,false,true,true,true,true,true,false,true],[false,true,true,true,true,true,true,false,true],[true,true,true,true,true,true,true,false,true],
[false,false,false,false,false,false,false,true,true],[true,false,false,false,false,false,false,true,true],[false,true,false,false,false,false,false,true,true],[true,true,false,false,false,false,false,true,true],[false,false,true,false,false,false,false,true,true],[true,false,true,false,false,false,false,true,true],
[false,true,true,false,false,false,false,true,true],[true,true,true,false,false,false,false,true,true],[false,false,false,true,false,false,false,true,true],[true,false,false,true,false,false,false,true,true],[false,true,false,true,false,false,false,true,true],[true,true,false,true,false,false,false,true,true],
[false,false,true,true,false,false,false,true,true],[true,false,true,true,false,false,false,true,true],[false,true,true,true,false,false,false,true,true],[true,true,true,true,false,false,false,true,true],[false,false,false,false,true,false,false,true,true],[true,false,false,false,true,false,false,true,true],
[false,true,false,false,true,false,false,true,true],[true,true,false,false,true,false,false,true,true],[false,false,true,false,true,false,false,true,true],[true,false,true,false,true,false,false,true,true],[false,true,true,false,true,false,false,true,true],[true,true,true,false,true,false,false,true,true],
[false,false,false,true,true,false,false,true,true],[true,false,false,true,true,false,false,true,true],[false,true,false,true,true,false,false,true,true],[true,true,false,true,true,false,false,true,true],[false,false,true,true,true,false,false,true,true],[true,false,true,true,true,false,false,true,true],
[false,true,true,true,true,false,false,true,true],[true,true,true,true,true,false,false,true,true],[false,false,false,false,false,true,false,true,true],[true,false,false,false,false,true,false,true,true],[false,true,false,false,false,true,false,true,true],[true,true,false,false,false,true,false,true,true],
[false,false,true,false,false,true,false,true,true],[true,false,true,false,false,true,false,true,true],[false,true,true,false,false,true,false,true,true],[true,true,true,false,false,true,false,true,true],[false,false,false,true,false,true,false,true,true],[true,false,false,true,false,true,false,true,true],
[false,true,false,true,false,true,false,true,true],[true,true,false,true,false,true,false,true,true],[false,false,true,true,false,true,false,true,true],[true,false,true,true,false,true,false,true,true],[false,true,true,true,false,true,false,true,true],[true,true,true,true,false,true,false,true,true],
[false,false,false,false,true,true,false,true,true],[true,false,false,false,true,true,false,true,true],[false,true,false,false,true,true,false,true,true],[true,true,false,false,true,true,false,true,true],[false,false,true,false,true,true,false,true,true],[true,false,true,false,true,true,false,true,true],
[false,true,true,false,true,true,false,true,true],[true,true,true,false,true,true,false,true,true],[false,false,false,true,true,true,false,true,true],[true,false,false,true,true,true,false,true,true],[false,true,false,true,true,true,false,true,true],[true,true,false,true,true,true,false,true,true],
[false,false,true,true,true,true,false,true,true],[true,false,true,true,true,true,false,true,true],[false,true,true,true,true,true,false,true,true],[true,true,true,true,true,true,false,true,true],[false,false,false,false,false,false,true,true,true],[true,false,false,false,false,false,true,true,true],
[false,true,false,false,false,false,true,true,true],[true,true,false,false,false,false,true,true,true],[false,false,true,false,false,false,true,true,true],[true,false,true,false,false,false,true,true,true],[false,true,true,false,false,false,true,true,true],[true,true,true,false,false,false,true,true,true],
[false,false,false,true,false,false,true,true,true],[true,false,false,true,false,false,true,true,true],[false,true,false,true,false,false,true,true,true],[true,true,false,true,false,false,true,true,true],[false,false,true,true,false,false,true,true,true],[true,false,true,true,false,false,true,true,true],
[false,true,true,true,false,false,true,true,true],[true,true,true,true,false,false,true,true,true],[false,false,false,false,true,false,true,true,true],[true,false,false,false,true,false,true,true,true],[false,true,false,false,true,false,true,true,true],[true,true,false,false,true,false,true,true,true],
[false,false,true,false,true,false,true,true,true],[true,false,true,false,true,false,true,true,true],[false,true,true,false,true,false,true,true,true],[true,true,true,false,true,false,true,true,true],[false,false,false,true,true,false,true,true,true],[true,false,false,true,true,false,true,true,true],
[false,true,false,true,true,false,true,true,true],[true,true,false,true,true,false,true,true,true],[false,false,true,true,true,false,true,true,true],[true,false,true,true,true,false,true,true,true],[false,true,true,true,true,false,true,true,true],[true,true,true,true,true,false,true,true,true],
[false,false,false,false,false,true,true,true,true],[true,false,false,false,false,true,true,true,true],[false,true,false,false,false,true,true,true,true],[true,true,false,false,false,true,true,true,true],[false,false,true,false,false,true,true,true,true],[true,false,true,false,false,true,true,true,true],
[false,true,true,false,false,true,true,true,true],[true,true,true,false,false,true,true,true,true],[false,false,false,true,false,true,true,true,true],[true,false,false,true,false,true,true,true,true],[false,true,false,true,false,true,true,true,true],[true,true,false,true,false,true,true,true,true],
[false,false,true,true,false,true,true,true,true],[true,false,true,true,false,true,true,true,true],[false,true,true,true,false,true,true,true,true],[true,true,true,true,false,true,true,true,true],[false,false,false,false,true,true,true,true,true],[true,false,false,false,true,true,true,true,true],
[false,true,false,false,true,true,true,true,true],[true,true,false,false,true,true,true,true,true],[false,false,true,false,true,true,true,true,true],[true,false,true,false,true,true,true,true,true],[false,true,true,false,true,true,true,true,true],[true,true,true,false,true,true,true,true,true],
[false,false,false,true,true,true,true,true,true],[true,false,false,true,true,true,true,true,true],[false,true,false,true,true,true,true,true,true],[true,true,false,true,true,true,true,true,true],[false,false,true,true,true,true,true,true,true],[true,false,true,true,true,true,true,true,true],
[false,true,true,true,true,true,true,true,true],[true,true,true,true,true,true,true,true,true],[false,false,false,false,false,false,false,false,false]]

/-- Structural legality of extending a state with visited bits `mpBits`
and last point `p` by candidate `c`: the constrained pairs need their
intermediate bit set (the already-swiped test on `c` is handled
positionally by `colC`). -/
def legalS (mpBits : List Bool) (p : Nat) (c : Nat) : Bool :=
  match through p c with
  | some t => mpBits.getD t false
  | none => true

/-- Total contribution a source row pushes into target column `c`. -/
def colVal (srcRow : List Nat) (mpBits : List Bool) (c : Nat) : Nat :=
  if srcRow == z9 then 0
  else (List.zipWith (fun p v => if legalS mpBits p c then v else 0) points srcRow).sum

/-- Three-way `zipWith`, truncating at the shortest list. -/
def zipW3 (f : α → β → γ → δ) : List α → List β → List γ → List δ
  | a :: as, b :: bs, c :: cs => f a b c :: zipW3 f as bs cs
  | _, _, _ => []

/-- Bit `c` of every row index, read off `bitsTable`. -/
def selC (c : Nat) : List Bool := bitsTable.map fun bits => bits.getD c false

/-- Column `c` of the fast transition: row `m` receives contributions via
candidate `c` exactly when bit `c` of `m` is set, and its source row is
then the row at distance `2 ^ c` below it, aligned by `List.drop`. -/
def colC (c : Nat) (d : Dist) : List Nat :=
  List.replicate (1 <<< c) 0 ++
    zipW3 (fun sel mpBits srcRow => if sel then colVal srcRow mpBits c else 0)
      (List.drop (1 <<< c) (selC c)) bitsTable d

/-- Fast structural transition; `next_step_eq_fast` proves it equal to
the source's `next_step` on every well-shaped distribution. -/
def next_step_fast (d : Dist) : Dist :=
  List.zipWith List.cons (colC 0 d)
    (List.zipWith List.cons (colC 1 d)
      (List.zipWith List.cons (colC 2 d)
        (List.zipWith List.cons (colC 3 d)
          (List.zipWith List.cons (colC 4 d)
            (List.zipWith List.cons (colC 5 d)
              (List.zipWith List.cons (colC 6 d)
                (List.zipWith List.cons (colC 7 d)
                  ((colC 8 d).map fun v => [v]))))))))

/-- Population count of a bit row. -/
def popB (bits : List Bool) : Nat :=
  bits.foldl (fun a b => if b then a + 1 else a) 0

/-- Structural counterpart of `validate`: a row passes if it is all zero
or the population count of its mask equals `step`.
`validate_of_fast` shows it implies the source's `validate`. -/
def validate_fast (d : Dist) (step : Nat) : Bool :=
  (List.zipWith (fun bits row => row == z9 || popB bits == step) bitsTable d).all
    fun b => b

/-- Shape of every distribution of the sweep: 513 rows of 9 counters. -/
def ShapeOK (d : Dist) : Prop :=
  d.length = rowsCount ∧ ∀ n, n < rowsCount → (d.getD n []).length = 9

/-- Boolean shape check. -/
def shapeOK (d : Dist) : Bool :=
  d.length == rowsCount && d.all fun r => r.length == 9

/-- The spec's table of constrained ordered pairs
`(from, to, required intermediate)`, both directions of each of the eight
listed rows, written from the spec's words for comparison with the code's
`through`. -/
def specTable : List (Nat × Nat × Nat) :=
  [(0, 2, 1), (2, 0, 1), (0, 6, 3), (6, 0, 3), (0, 8, 4), (8, 0, 4),
   (2, 6, 4), (6, 2, 4), (2, 8, 5), (8, 2, 5), (6, 8, 7), (8, 6, 7),
   (1, 7, 4), (7, 1, 4), (3, 5, 4), (5, 3, 4)]

/-- The ordered pairs `(a, b)` of distinct points whose length-2 swipe is
rejected by the code: `swipe_to` from the single-point state of `a`
returns `none` for `b`. -/
def blockedAtLengthTwo : List (Nat × Nat) :=
  (List.range 9).flatMap fun a =>
    ((List.range 9).filter fun b =>
      (a != b) && (swipe_to (from_point a) b == none)).map fun b => (a, b)

/-- Certificate: the length-1 distribution of the sweep, as 513 rows of 9. -/
def dist1 : Dist :=
[z9,[1,0,0,0,0,0,0,0,0],[0,1,0,0,0,0,0,0,0],z9,[0,0,1,0,0,0,0,0,0],z9,z9,z9,[0,0,0,1,0,0,0,0,0],z9,z9,z9,
z9,z9,z9,z9,[0,0,0,0,1,0,0,0,0],z9,z9,z9,z9,z9,z9,z9,
z9,z9,z9,z9,z9,z9,z9,z9,[0,0,0,0,0,1,0,0,0],z9,z9,z9,
z9,z9,z9,z9,z9,z9,z9,z9,z9,z9,z9,z9,
z9,z9,z9,z9,z9,z9,z9,z9,z9,z9,z9,z9,
z9,z9,z9,z9,[0,0,0,0,0,0,1,0,0],z9,z9,z9,z9,z9,z9,z9,
z9,z9,z9,z9,z9,z9,z9,z9,z9,z9,z9,z9,
z9,z9,z9,z9,z9,z9,z9,z9,z9,z9,z9,z9,
z9,z9,z9,z9,z9,z9,z9,z9,z9,z9,z9,z9,
z9,z9,z9,z9,z9,z9,z9,z9,z9,z9,z9,z9,
z9,z9,z9,z9,z9,z9,z9,z9,[0,0,0,0,0,0,0,1,0],z9,z9,z9,
z9,z9,z9,z9,z9,z9,z9,z9,z9,z9,z9,z9,
z9,z9,z9,z9,z9,z9,z9,z9,z9,z9,z9,z9,
z9,z9,z9,z9,z9,z9,z9,z9,z9,z9,z9,z9,
z9,z9,z9,z9,z9,z9,z9,z9,z9,z9,z9,z9,
z9,z9,z9,z9,z9,z9,z9,z9,z9,z9,z9,z9,
z9,z9,z9,z9,z9,z9,z9,z9,z9,z9,z9,z9,
z9,z9,z9,z9,z9,z9,z9,z9,z9,z9,z9,z9,
z9,z9,z9,z9,z9,z9,z9,z9,z9,z9,z9,z9,
z9,z9,z9,z9,z9,z9,z9,z9,z9,z9,z9,z9,
z9,z9,z9,z9,z9,z9,z9,z9,z9,z9,z9,z9,
z9,z9,z9,z9,[0,0,0,0,0,0,0,0,1],z9,z9,z9,z9,z9,z9,z9,
z9,z9,z9,z9,z9,z9,z9,z9,z9,z9,z9,z9,
z9,z9,z9,z9,z9,z9,z9,z9,z9,z9,z9,z9,
z9,z9,z9,z9,z9,z9,z9,z9,z9,z9,z9,z9,
z9,z9,z9,z9,z9,z9,z9,z9,z9,z9,z9,z9,
z9,z9,z9,z9,z9,z9,z9,z9,z9,z9,z9,z9,
z9,z9,z9,z9,z9,z9,z9,z9,z9,z9,z9,z9,
z9,z9,z9,z9,z9,z9,z9,z9,z9,z9,z9,z9,
z9,z9,z9,z9,z9,z9,z9,z9,z9,z9,z9,z9,
z9,z9,z9,z9,z9,z9,z9,z9,z9,z9,z9,z9,
z9,z9,z9,z9,z9,z9,z9,z9,z9,z9,z9,z9,
z9,z9,z9,z9,z9,z9,z9,z9,z9,z9,z9,z9,
z9,z9,z9,z9,z9,z9,z9,z9,z9,z9,z9,z9,
z9,z9,z9,z9,z9,z9,z9,z9,z9,z9,z9,z9,
z9,z9,z9,z9,z9,z9,z9,z9,z9,z9,z9,z9,
z9,z9,z9,z9,z9,z9,z9,z9,z9,z9,z9,z9,
z9,z9,z9,z9,z9,z9,z9,z9,z9,z9,z9,z9,
z9,z9,z9,z9,z9,z9,z9,z9,z9,z9,z9,z9,
z9,z9,z9,z9,z9,z9,z9,z9,z9,z9,z9,z9,
z9,z9,z9,z9,z9,z9,z9,z9,z9,z9,z9,z9,
z9,z9,z9,z9,z9,z9,z9,z9,z9,z9,z9,z9,
z9,z9,z9,z9,z9,z9,z9,z9,z9]

/-- Certificate: the length-2 distribution of the sweep, as 513 rows of 9. -/
def dist2 : Dist :=
[z9,z9,z9,[1,1,0,0,0,0,0,0,0],z9,z9,[0,1,1,0,0,0,0,0,0],z9,z9,[1,0,0,1,0,0,0,0,0],[0,1,0,1,0,0,0,0,0],z9,
[0,0,1,1,0,0,0,0,0],z9,z9,z9,z9,[1,0,0,0,1,0,0,0,0],[0,1,0,0,1,0,0,0,0],z9,[0,0,1,0,1,0,0,0,0],z9,z9,z9,
[0,0,0,1,1,0,0,0,0],z9,z9,z9,z9,z9,z9,z9,z9,[1,0,0,0,0,1,0,0,0],[0,1,0,0,0,1,0,0,0],z9,
[0,0,1,0,0,1,0,0,0],z9,z9,z9,z9,z9,z9,z9,z9,z9,z9,z9,
[0,0,0,0,1,1,0,0,0],z9,z9,z9,z9,z9,z9,z9,z9,z9,z9,z9,
z9,z9,z9,z9,z9,z9,[0,1,0,0,0,0,1,0,0],z9,z9,z9,z9,z9,
[0,0,0,1,0,0,1,0,0],z9,z9,z9,z9,z9,z9,z9,[0,0,0,0,1,0,1,0,0],z9,z9,z9,
z9,z9,z9,z9,z9,z9,z9,z9,z9,z9,z9,z9,
[0,0,0,0,0,1,1,0,0],z9,z9,z9,z9,z9,z9,z9,z9,z9,z9,z9,
z9,z9,z9,z9,z9,z9,z9,z9,z9,z9,z9,z9,
z9,z9,z9,z9,z9,z9,z9,z9,z9,[1,0,0,0,0,0,0,1,0],z9,z9,
[0,0,1,0,0,0,0,1,0],z9,z9,z9,[0,0,0,1,0,0,0,1,0],z9,z9,z9,z9,z9,z9,z9,
[0,0,0,0,1,0,0,1,0],z9,z9,z9,z9,z9,z9,z9,z9,z9,z9,z9,
z9,z9,z9,z9,[0,0,0,0,0,1,0,1,0],z9,z9,z9,z9,z9,z9,z9,
z9,z9,z9,z9,z9,z9,z9,z9,z9,z9,z9,z9,
z9,z9,z9,z9,z9,z9,z9,z9,z9,z9,z9,z9,
[0,0,0,0,0,0,1,1,0],z9,z9,z9,z9,z9,z9,z9,z9,z9,z9,z9,
z9,z9,z9,z9,z9,z9,z9,z9,z9,z9,z9,z9,
z9,z9,z9,z9,z9,z9,z9,z9,z9,z9,z9,z9,
z9,z9,z9,z9,z9,z9,z9,z9,z9,z9,z9,z9,
z9,z9,z9,z9,z9,z9,z9,z9,z9,z9,z9,z9,
z9,z9,z9,z9,z9,z9,[0,1,0,0,0,0,0,0,1],z9,z9,z9,z9,z9,
[0,0,0,1,0,0,0,0,1],z9,z9,z9,z9,z9,z9,z9,[0,0,0,0,1,0,0,0,1],z9,z9,z9,
z9,z9,z9,z9,z9,z9,z9,z9,z9,z9,z9,z9,
[0,0,0,0,0,1,0,0,1],z9,z9,z9,z9,z9,z9,z9,z9,z9,z9,z9,
z9,z9,z9,z9,z9,z9,z9,z9,z9,z9,z9,z9,
z9,z9,z9,z9,z9,z9,z9,z9,z9,z9,z9,z9,
z9,z9,z9,z9,z9,z9,z9,z9,z9,z9,z9,z9,
z9,z9,z9,z9,z9,z9,z9,z9,z9,z9,z9,z9,
z9,z9,z9,z9,z9,z9,z9,z9,z9,z9,z9,z9,
z9,z9,z9,z9,z9,z9,z9,z9,z9,z9,z9,z9,
z9,z9,z9,z9,z9,z9,z9,z9,z9,z9,z9,z9,
[0,0,0,0,0,0,0,1,1],z9,z9,z9,z9,z9,z9,z9,z9,z9,z9,z9,
z9,z9,z9,z9,z9,z9,z9,z9,z9,z9,z9,z9,
z9,z9,z9,z9,z9,z9,z9,z9,z9,z9,z9,z9,
z9,z9,z9,z9,z9,z9,z9,z9,z9,z9,z9,z9,
z9,z9,z9,z9,z9,z9,z9,z9,z9,z9,z9,z9,
z9,z9,z9,z9,z9,z9,z9,z9,z9,z9,z9,z9,
z9,z9,z9,z9,z9,z9,z9,z9,z9,z9,z9,z9,
z9,z9,z9,z9,z9,z9,z9,z9,z9,z9,z9,z9,
z9,z9,z9,z9,z9,z9,z9,z9,z9,z9,z9,z9,
z9,z9,z9,z9,z9,z9,z9,z9,z9,z9,z9,z9,
z9,z9,z9,z9,z9,z9,z9,z9,z9]

/-- Certificate: the length-3 distribution of the sweep, as 513 rows of 9. -/
def dist3 : Dist :=
[z9,z9,z9,z9,z9,z9,z9,[2,0,2,0,0,0,0,0,0],z9,z9,z9,[2,2,0,2,0,0,0,0,0],
z9,[1,0,1,0,0,0,0,0,0],[0,2,2,2,0,0,0,0,0],z9,z9,z9,z9,[2,2,0,0,2,0,0,0,0],z9,[1,0,1,0,0,0,0,0,0],[0,2,2,0,2,0,0,0,0],z9,
z9,[2,0,0,2,2,0,0,0,0],[0,2,0,2,2,0,0,0,0],z9,[0,0,2,2,2,0,0,0,0],z9,z9,z9,z9,z9,z9,[2,2,0,0,0,2,0,0,0],
z9,[1,0,1,0,0,0,0,0,0],[0,2,2,0,0,2,0,0,0],z9,z9,[0,0,0,1,0,1,0,0,0],[0,0,0,1,0,1,0,0,0],z9,[0,0,0,1,0,1,0,0,0],z9,z9,z9,
z9,[2,0,0,0,2,2,0,0,0],[0,2,0,0,2,2,0,0,0],z9,[0,0,2,0,2,2,0,0,0],z9,z9,z9,[0,0,0,2,0,2,0,0,0],z9,z9,z9,
z9,z9,z9,z9,z9,z9,z9,[1,0,0,0,0,0,1,0,0],z9,z9,[0,0,1,0,0,0,1,0,0],z9,
z9,[2,0,0,0,0,0,2,0,0],[0,2,0,2,0,0,2,0,0],z9,[0,0,1,0,0,0,1,0,0],z9,z9,z9,z9,[1,0,0,0,0,0,1,0,0],[0,2,0,0,2,0,2,0,0],z9,
[0,0,2,0,0,0,2,0,0],z9,z9,z9,[0,0,0,2,2,0,2,0,0],z9,z9,z9,z9,z9,z9,z9,
z9,[1,0,0,0,0,0,1,0,0],[0,2,0,0,0,2,2,0,0],z9,[0,0,1,0,0,0,1,0,0],z9,z9,z9,[0,0,0,1,0,1,0,0,0],z9,z9,z9,
z9,z9,z9,z9,[0,0,0,0,2,2,2,0,0],z9,z9,z9,z9,z9,z9,z9,
z9,z9,z9,z9,z9,z9,z9,z9,z9,z9,z9,[0,1,0,0,0,0,0,1,0],
z9,[1,0,1,0,0,0,0,0,0],[0,1,0,0,0,0,0,1,0],z9,z9,[2,0,0,2,0,0,0,2,0],[0,1,0,0,0,0,0,1,0],z9,[0,0,2,2,0,0,0,2,0],z9,z9,z9,
z9,[2,0,0,0,2,0,0,2,0],[0,2,0,0,0,0,0,2,0],z9,[0,0,2,0,2,0,0,2,0],z9,z9,z9,[0,0,0,2,2,0,0,2,0],z9,z9,z9,
z9,z9,z9,z9,z9,[2,0,0,0,0,2,0,2,0],[0,1,0,0,0,0,0,1,0],z9,[0,0,2,0,0,2,0,2,0],z9,z9,z9,
[0,0,0,1,0,1,0,0,0],z9,z9,z9,z9,z9,z9,z9,[0,0,0,0,2,2,0,2,0],z9,z9,z9,
z9,z9,z9,z9,z9,z9,z9,z9,z9,z9,z9,z9,
z9,[1,0,0,0,0,0,1,0,0],[0,1,0,0,0,0,0,1,0],z9,[0,0,1,0,0,0,1,0,0],z9,z9,z9,[0,0,0,2,0,0,2,2,0],z9,z9,z9,
z9,z9,z9,z9,[0,0,0,0,2,0,2,2,0],z9,z9,z9,z9,z9,z9,z9,
z9,z9,z9,z9,z9,z9,z9,z9,[0,0,0,0,0,2,2,2,0],z9,z9,z9,
z9,z9,z9,z9,z9,z9,z9,z9,z9,z9,z9,z9,
z9,z9,z9,z9,z9,z9,z9,z9,z9,z9,z9,z9,
z9,z9,z9,z9,z9,z9,z9,[1,0,0,0,0,0,0,0,1],z9,z9,[0,0,1,0,0,0,0,0,1],z9,
z9,[1,0,0,0,0,0,0,0,1],[0,2,0,2,0,0,0,0,2],z9,[0,0,1,0,0,0,0,0,1],z9,z9,z9,z9,[2,0,0,0,0,0,0,0,2],[0,2,0,0,2,0,0,0,2],z9,
[0,0,1,0,0,0,0,0,1],z9,z9,z9,[0,0,0,2,2,0,0,0,2],z9,z9,z9,z9,z9,z9,z9,
z9,[1,0,0,0,0,0,0,0,1],[0,2,0,0,0,2,0,0,2],z9,[0,0,2,0,0,0,0,0,2],z9,z9,z9,[0,0,0,1,0,1,0,0,0],z9,z9,z9,
z9,z9,z9,z9,[0,0,0,0,2,2,0,0,2],z9,z9,z9,z9,z9,z9,z9,
z9,z9,z9,z9,z9,z9,z9,z9,z9,z9,[0,0,0,0,0,0,1,0,1],z9,
z9,z9,z9,z9,[0,0,0,0,0,0,1,0,1],z9,z9,z9,z9,z9,z9,z9,
[0,0,0,0,0,0,1,0,1],z9,z9,z9,z9,z9,z9,z9,z9,z9,z9,z9,
z9,z9,z9,z9,[0,0,0,0,0,0,1,0,1],z9,z9,z9,z9,z9,z9,z9,
z9,z9,z9,z9,z9,z9,z9,z9,z9,z9,z9,z9,
z9,z9,z9,z9,z9,z9,z9,z9,z9,z9,z9,z9,
z9,[1,0,0,0,0,0,0,0,1],[0,1,0,0,0,0,0,1,0],z9,[0,0,1,0,0,0,0,0,1],z9,z9,z9,[0,0,0,2,0,0,0,2,2],z9,z9,z9,
z9,z9,z9,z9,[0,0,0,0,2,0,0,2,2],z9,z9,z9,z9,z9,z9,z9,
z9,z9,z9,z9,z9,z9,z9,z9,[0,0,0,0,0,2,0,2,2],z9,z9,z9,
z9,z9,z9,z9,z9,z9,z9,z9,z9,z9,z9,z9,
z9,z9,z9,z9,z9,z9,z9,z9,z9,z9,z9,z9,
z9,z9,z9,z9,[0,0,0,0,0,0,2,0,2],z9,z9,z9,z9,z9,z9,z9,
z9,z9,z9,z9,z9,z9,z9,z9,z9,z9,z9,z9,
z9,z9,z9,z9,z9,z9,z9,z9,z9,z9,z9,z9,
z9,z9,z9,z9,z9,z9,z9,z9,z9,z9,z9,z9,
z9,z9,z9,z9,z9,z9,z9,z9,z9,z9,z9,z9,
z9,z9,z9,z9,z9,z9,z9,z9,z9]

/-- Certificate: the length-4 distribution of the sweep, as 513 rows of 9. -/
def dist4 : Dist :=
[z9,z9,z9,z9,z9,z9,z9,z9,z9,z9,z9,z9,
z9,z9,z9,[6,2,6,4,0,0,0,0,0],z9,z9,z9,z9,z9,z9,z9,[6,2,6,0,4,0,0,0,0],
z9,z9,z9,[6,6,0,6,6,0,0,0,0],z9,[4,0,4,2,2,0,0,0,0],[0,6,6,6,6,0,0,0,0],z9,z9,z9,z9,z9,
z9,z9,z9,[6,2,6,0,0,4,0,0,0],z9,z9,z9,[2,2,0,4,0,4,0,0,0],z9,[2,0,2,2,0,2,0,0,0],[0,2,2,4,0,4,0,0,0],z9,
z9,z9,z9,[6,6,0,0,6,6,0,0,0],z9,[4,0,4,0,2,2,0,0,0],[0,6,6,0,6,6,0,0,0],z9,z9,[4,0,0,6,2,6,0,0,0],[0,4,0,6,2,6,0,0,0],z9,
[0,0,4,6,2,6,0,0,0],z9,z9,z9,z9,z9,z9,z9,z9,z9,z9,[1,0,1,0,0,0,0,0,0],
z9,z9,z9,[6,4,0,2,0,0,6,0,0],z9,[1,0,0,0,0,0,1,0,0],[0,2,4,2,0,0,4,0,0],z9,z9,z9,z9,[4,2,0,0,2,0,4,0,0],
z9,[0,0,1,0,0,0,1,0,0],[0,4,6,0,2,0,6,0,0],z9,z9,[6,0,0,2,4,0,6,0,0],[0,6,0,6,6,0,6,0,0],z9,[0,0,6,4,2,0,6,0,0],z9,z9,z9,
z9,z9,z9,[4,2,0,0,0,2,4,0,0],z9,z9,[0,2,4,0,0,2,4,0,0],z9,z9,[2,0,0,2,0,4,2,0,0],[0,2,0,4,0,4,2,0,0],z9,
[0,0,2,2,0,2,2,0,0],z9,z9,z9,z9,[4,0,0,0,2,2,4,0,0],[0,6,0,0,6,6,6,0,0],z9,[0,0,6,0,2,4,6,0,0],z9,z9,z9,
[0,0,0,6,2,6,4,0,0],z9,z9,z9,z9,z9,z9,z9,z9,z9,z9,z9,
z9,z9,z9,[2,2,2,0,0,0,0,4,0],z9,z9,z9,[2,4,0,2,0,0,0,4,0],z9,[4,0,4,2,0,0,0,2,0],[0,4,2,2,0,0,0,4,0],z9,
z9,z9,z9,[4,6,0,0,2,0,0,6,0],z9,[4,0,4,0,2,0,0,2,0],[0,6,4,0,2,0,0,6,0],z9,z9,[6,0,0,6,6,0,0,6,0],[0,6,0,4,2,0,0,6,0],z9,
[0,0,6,6,6,0,0,6,0],z9,z9,z9,z9,z9,z9,[2,4,0,0,0,2,0,4,0],z9,[4,0,4,0,0,2,0,2,0],[0,4,2,0,0,2,0,4,0],z9,
z9,[2,0,0,4,0,4,0,2,0],[0,2,0,2,0,2,0,2,0],z9,[0,0,2,4,0,4,0,2,0],z9,z9,z9,z9,[6,0,0,0,6,6,0,6,0],[0,6,0,0,2,4,0,6,0],z9,
[0,0,6,0,6,6,0,6,0],z9,z9,z9,[0,0,0,6,2,6,0,4,0],z9,z9,z9,z9,z9,z9,z9,
z9,z9,z9,[2,2,0,0,0,0,2,2,0],z9,z9,[0,2,2,0,0,0,2,2,0],z9,z9,[6,0,0,2,0,0,6,4,0],[0,4,0,2,0,0,2,4,0],z9,
[0,0,4,2,0,0,4,2,0],z9,z9,z9,z9,[4,0,0,0,2,0,4,2,0],[0,6,0,0,2,0,4,6,0],z9,[0,0,6,0,2,0,6,4,0],z9,z9,z9,
[0,0,0,6,6,0,6,6,0],z9,z9,z9,z9,z9,z9,z9,z9,[4,0,0,0,0,2,4,2,0],[0,4,0,0,0,2,2,4,0],z9,
[0,0,4,0,0,2,4,2,0],z9,z9,z9,[0,0,0,4,0,4,2,2,0],z9,z9,z9,z9,z9,z9,z9,
[0,0,0,0,6,6,6,6,0],z9,z9,z9,z9,z9,z9,z9,z9,z9,z9,z9,
z9,z9,z9,z9,z9,z9,z9,z9,z9,z9,z9,[1,0,1,0,0,0,0,0,0],
z9,z9,z9,[4,2,0,2,0,0,0,0,4],z9,z9,[0,2,4,2,0,0,0,0,4],z9,z9,z9,z9,[6,4,0,0,2,0,0,0,6],
z9,[1,0,0,0,0,0,0,0,1],[0,2,4,0,2,0,0,0,4],z9,z9,[6,0,0,4,2,0,0,0,6],[0,6,0,6,6,0,0,0,6],z9,[0,0,4,2,2,0,0,0,4],z9,z9,z9,
z9,z9,z9,[4,2,0,0,0,2,0,0,4],z9,[0,0,1,0,0,0,0,0,1],[0,4,6,0,0,2,0,0,6],z9,z9,[2,0,0,2,0,2,0,0,2],[0,2,0,4,0,4,0,0,2],z9,
[0,0,2,4,0,2,0,0,2],z9,z9,z9,z9,[6,0,0,0,2,4,0,0,6],[0,6,0,0,6,6,0,0,6],z9,[0,0,6,0,4,2,0,0,6],z9,z9,z9,
[0,0,0,6,2,6,0,0,4],z9,z9,z9,z9,z9,z9,z9,z9,z9,z9,z9,
z9,z9,z9,z9,z9,[1,0,0,0,0,0,1,0,0],[0,2,0,2,0,0,4,0,4],z9,z9,z9,z9,z9,
z9,[1,0,0,0,0,0,0,0,1],[0,2,0,0,2,0,4,0,4],z9,[0,0,1,0,0,0,1,0,0],z9,z9,z9,[0,0,0,2,2,0,4,0,4],z9,z9,z9,
z9,z9,z9,z9,z9,z9,[0,2,0,0,0,2,4,0,4],z9,[0,0,1,0,0,0,0,0,1],z9,z9,z9,
[0,0,0,2,0,2,2,0,2],z9,z9,z9,z9,z9,z9,z9,[0,0,0,0,2,2,4,0,4],z9,z9,z9,
z9,z9,z9,z9,z9,z9,z9,z9,z9,z9,z9,z9,
z9,z9,z9,[2,2,0,0,0,0,0,2,2],z9,z9,[0,2,2,0,0,0,0,2,2],z9,z9,[4,0,0,2,0,0,0,2,4],[0,4,0,2,0,0,0,4,2],z9,
[0,0,4,2,0,0,0,2,4],z9,z9,z9,z9,[6,0,0,0,2,0,0,4,6],[0,6,0,0,2,0,0,6,4],z9,[0,0,4,0,2,0,0,2,4],z9,z9,z9,
[0,0,0,6,6,0,0,6,6],z9,z9,z9,z9,z9,z9,z9,z9,[4,0,0,0,0,2,0,2,4],[0,4,0,0,0,2,0,4,2],z9,
[0,0,6,0,0,2,0,4,6],z9,z9,z9,[0,0,0,4,0,4,0,2,2],z9,z9,z9,z9,z9,z9,z9,
[0,0,0,0,6,6,0,6,6],z9,z9,z9,z9,z9,z9,z9,z9,z9,z9,z9,
z9,z9,z9,z9,z9,[0,0,0,0,0,0,1,0,1],[0,4,0,0,0,0,2,2,2],z9,[0,0,0,0,0,0,1,0,1],z9,z9,z9,
[0,0,0,4,0,0,6,2,6],z9,z9,z9,z9,z9,z9,z9,[0,0,0,0,4,0,6,2,6],z9,z9,z9,
z9,z9,z9,z9,z9,z9,z9,z9,z9,z9,z9,z9,
[0,0,0,0,0,4,6,2,6],z9,z9,z9,z9,z9,z9,z9,z9,z9,z9,z9,
z9,z9,z9,z9,z9,z9,z9,z9,z9,z9,z9,z9,
z9,z9,z9,z9,z9,z9,z9,z9,z9]

/-- Certificate: the length-5 distribution of the sweep, as 513 rows of 9. -/
def dist5 : Dist :=
[z9,z9,z9,z9,z9,z9,z9,z9,z9,z9,z9,z9,
z9,z9,z9,z9,z9,z9,z9,z9,z9,z9,z9,z9,
z9,z9,z9,z9,z9,z9,z9,[24,12,24,18,18,0,0,0,0],z9,z9,z9,z9,
z9,z9,z9,z9,z9,z9,z9,z9,z9,z9,z9,[12,8,12,14,0,14,0,0,0],
z9,z9,z9,z9,z9,z9,z9,[24,12,24,0,18,18,0,0,0],z9,z9,z9,[18,18,0,24,12,24,0,0,0],
z9,[14,0,14,12,8,12,0,0,0],[0,18,18,24,12,24,0,0,0],z9,z9,z9,z9,z9,z9,z9,z9,z9,
z9,z9,z9,z9,z9,z9,z9,[12,2,12,2,0,0,12,0,0],z9,z9,z9,z9,
z9,z9,z9,[12,2,12,0,2,0,12,0,0],z9,z9,z9,[24,18,0,12,18,0,24,0,0],z9,[12,0,12,2,2,0,12,0,0],[0,18,24,18,12,0,24,0,0],z9,
z9,z9,z9,z9,z9,z9,z9,[8,0,8,0,0,2,6,0,0],z9,z9,z9,[12,10,0,10,0,16,12,0,0],
z9,[6,0,6,0,0,2,6,0,0],[0,8,10,10,0,10,10,0,0],z9,z9,z9,z9,[18,12,0,0,12,12,18,0,0],z9,[6,0,8,0,0,2,8,0,0],[0,18,24,0,12,18,24,0,0],z9,
z9,[18,0,0,12,10,18,18,0,0],[0,18,0,24,12,24,18,0,0],z9,[0,0,18,18,8,18,18,0,0],z9,z9,z9,z9,z9,z9,z9,
z9,z9,z9,z9,z9,z9,z9,z9,z9,z9,z9,[12,10,12,10,0,0,0,16,0],
z9,z9,z9,z9,z9,z9,z9,[18,12,18,0,10,0,0,18,0],z9,z9,z9,[18,24,0,18,12,0,0,24,0],
z9,[18,0,18,12,12,0,0,12,0],[0,24,18,18,12,0,0,24,0],z9,z9,z9,z9,z9,z9,z9,z9,[12,10,12,0,0,10,0,16,0],
z9,z9,z9,[8,10,0,10,0,10,0,10,0],z9,[10,0,10,10,0,10,0,8,0],[0,10,8,10,0,10,0,10,0],z9,z9,z9,z9,[18,24,0,0,12,18,0,24,0],
z9,[18,0,18,0,12,12,0,12,0],[0,24,18,0,12,18,0,24,0],z9,z9,[18,0,0,24,12,24,0,18,0],[0,18,0,18,8,18,0,18,0],z9,[0,0,18,24,12,24,0,18,0],z9,z9,z9,
z9,z9,z9,z9,z9,z9,z9,[6,0,6,0,0,0,6,2,0],z9,z9,z9,[12,14,0,8,0,0,12,14,0],
z9,[8,0,6,0,0,0,8,2,0],[0,10,10,8,0,0,10,10,0],z9,z9,z9,z9,[14,12,0,0,8,0,14,12,0],z9,[6,0,8,0,0,0,8,2,0],[0,18,18,0,8,0,18,18,0],z9,
z9,[24,0,0,12,18,0,24,18,0],[0,24,0,18,12,0,18,24,0],z9,[0,0,24,18,12,0,24,18,0],z9,z9,z9,z9,z9,z9,[10,10,0,0,0,8,10,10,0],
z9,[4,0,4,0,0,0,4,0,0],[0,10,10,0,0,8,10,10,0],z9,z9,[12,0,0,10,0,16,12,10,0],[0,10,0,10,0,10,8,10,0],z9,[0,0,10,10,0,10,10,8,0],z9,z9,z9,
z9,[18,0,0,0,12,12,18,12,0],[0,24,0,0,12,18,18,24,0],z9,[0,0,24,0,12,18,24,18,0],z9,z9,z9,[0,0,0,24,12,24,18,18,0],z9,z9,z9,
z9,z9,z9,z9,z9,z9,z9,z9,z9,z9,z9,z9,
z9,z9,z9,z9,z9,z9,z9,[8,0,8,2,0,0,0,0,6],z9,z9,z9,z9,
z9,z9,z9,[12,2,12,0,2,0,0,0,12],z9,z9,z9,[24,18,0,18,12,0,0,0,24],z9,[8,0,6,2,0,0,0,0,8],[0,12,18,12,12,0,0,0,18],z9,
z9,z9,z9,z9,z9,z9,z9,[12,2,12,0,0,2,0,0,12],z9,z9,z9,[10,8,0,10,0,10,0,0,10],
z9,[6,0,6,2,0,0,0,0,6],[0,10,12,16,0,10,0,0,12],z9,z9,z9,z9,[24,18,0,0,12,18,0,0,24],z9,[12,0,12,0,2,2,0,0,12],[0,18,24,0,18,12,0,0,24],z9,
z9,[18,0,0,18,8,18,0,0,18],[0,18,0,24,12,24,0,0,18],z9,[0,0,18,18,10,12,0,0,18],z9,z9,z9,z9,z9,z9,z9,
z9,z9,z9,z9,z9,z9,z9,[8,2,0,0,0,0,8,0,6],z9,z9,[0,0,4,0,0,0,4,0,4],z9,
z9,z9,z9,[8,2,0,0,0,0,6,0,8],z9,z9,[0,2,8,0,0,0,8,0,6],z9,z9,[12,0,0,2,2,0,12,0,12],[0,12,0,12,12,0,18,0,18],z9,
[0,0,8,2,0,0,8,0,6],z9,z9,z9,z9,z9,z9,[4,0,0,0,0,0,4,0,4],z9,z9,[0,2,8,0,0,0,6,0,8],z9,
z9,[6,0,0,0,0,2,6,0,6],[0,8,0,10,0,10,10,0,10],z9,[0,0,6,2,0,0,6,0,6],z9,z9,z9,z9,[8,0,0,0,0,2,6,0,8],[0,12,0,0,12,12,18,0,18],z9,
[0,0,12,0,2,2,12,0,12],z9,z9,z9,[0,0,0,12,8,12,14,0,14],z9,z9,z9,z9,z9,z9,z9,
z9,z9,z9,z9,z9,z9,z9,[6,0,6,0,0,0,0,2,6],z9,z9,z9,[10,10,0,8,0,0,0,10,10],
z9,[4,0,4,0,0,0,0,0,4],[0,10,10,8,0,0,0,10,10],z9,z9,z9,z9,[18,18,0,0,8,0,0,18,18],z9,[8,0,6,0,0,0,0,2,8],[0,12,14,0,8,0,0,12,14],z9,
z9,[24,0,0,18,12,0,0,18,24],[0,24,0,18,12,0,0,24,18],z9,[0,0,18,12,12,0,0,12,18],z9,z9,z9,z9,z9,z9,[10,10,0,0,0,8,0,10,10],
z9,[6,0,8,0,0,0,0,2,8],[0,14,12,0,0,8,0,14,12],z9,z9,[10,0,0,10,0,10,0,8,10],[0,10,0,10,0,10,0,10,8],z9,[0,0,12,16,0,10,0,10,12],z9,z9,z9,
z9,[24,0,0,0,12,18,0,18,24],[0,24,0,0,12,18,0,24,18],z9,[0,0,24,0,18,12,0,18,24],z9,z9,z9,[0,0,0,24,12,24,0,18,18],z9,z9,z9,
z9,z9,z9,z9,z9,z9,z9,[6,2,0,0,0,0,6,0,6],z9,z9,[0,2,6,0,0,0,6,0,6],z9,
z9,[12,0,0,2,0,0,12,2,12],[0,16,0,10,0,0,12,10,12],z9,[0,0,6,2,0,0,8,0,8],z9,z9,z9,z9,[12,0,0,0,2,0,12,2,12],[0,18,0,0,10,0,18,12,18],z9,
[0,0,12,0,2,0,12,2,12],z9,z9,z9,[0,0,0,18,18,0,24,12,24],z9,z9,z9,z9,z9,z9,z9,
z9,[6,0,0,0,0,2,8,0,8],[0,16,0,0,0,10,12,10,12],z9,[0,0,12,0,0,2,12,2,12],z9,z9,z9,[0,0,0,14,0,14,12,8,12],z9,z9,z9,
z9,z9,z9,z9,[0,0,0,0,18,18,24,12,24],z9,z9,z9,z9,z9,z9,z9,
z9,z9,z9,z9,z9,z9,z9,z9,z9]

/-- Certificate: the length-6 distribution of the sweep, as 513 rows of 9. -/
def dist6 : Dist :=
[z9,z9,z9,z9,z9,z9,z9,z9,z9,z9,z9,z9,
z9,z9,z9,z9,z9,z9,z9,z9,z9,z9,z9,z9,
z9,z9,z9,z9,z9,z9,z9,z9,z9,z9,z9,z9,
z9,z9,z9,z9,z9,z9,z9,z9,z9,z9,z9,z9,
z9,z9,z9,z9,z9,z9,z9,z9,z9,z9,z9,z9,
z9,z9,z9,[96,60,96,96,60,96,0,0,0],z9,z9,z9,z9,z9,z9,z9,z9,
z9,z9,z9,z9,z9,z9,z9,z9,z9,z9,z9,z9,
z9,z9,z9,z9,z9,z9,z9,z9,z9,z9,z9,[96,40,96,40,40,0,96,0,0],
z9,z9,z9,z9,z9,z9,z9,z9,z9,z9,z9,z9,
z9,z9,z9,[48,20,48,22,0,38,48,0,0],z9,z9,z9,z9,z9,z9,z9,[72,24,72,0,24,40,72,0,0],
z9,z9,z9,[96,76,0,72,60,96,96,0,0],z9,[62,0,58,24,20,40,60,0,0],[0,80,96,96,48,96,96,0,0],z9,z9,z9,z9,z9,
z9,z9,z9,z9,z9,z9,z9,z9,z9,z9,z9,z9,
z9,z9,z9,z9,z9,z9,z9,z9,z9,z9,z9,z9,
z9,z9,z9,[96,72,96,76,60,0,0,96,0],z9,z9,z9,z9,z9,z9,z9,z9,
z9,z9,z9,z9,z9,z9,z9,[48,40,48,50,0,50,0,52,0],z9,z9,z9,z9,
z9,z9,z9,[96,72,96,0,60,76,0,96,0],z9,z9,z9,[80,96,0,96,48,96,0,96,0],z9,[78,0,78,72,48,72,0,60,0],[0,96,80,96,48,96,0,96,0],z9,
z9,z9,z9,z9,z9,z9,z9,z9,z9,z9,z9,z9,
z9,z9,z9,[48,22,48,20,0,0,48,38,0],z9,z9,z9,z9,z9,z9,z9,[62,24,60,0,20,0,58,40,0],
z9,z9,z9,[96,96,0,60,60,0,96,96,0],z9,[72,0,72,24,24,0,72,40,0],[0,96,96,80,48,0,96,96,0],z9,z9,z9,z9,z9,
z9,z9,z9,[38,12,38,0,0,20,36,24,0],z9,z9,z9,[48,50,0,40,0,52,48,50,0],z9,[38,0,36,12,0,24,38,20,0],[0,40,40,40,0,40,40,40,0],z9,
z9,z9,z9,[78,72,0,0,48,60,78,72,0],z9,[48,0,54,0,12,24,54,24,0],[0,96,96,0,48,80,96,96,0],z9,z9,[96,0,0,72,60,96,96,76,0],[0,96,0,96,48,96,80,96,0],z9,
[0,0,96,96,48,96,96,80,0],z9,z9,z9,z9,z9,z9,z9,z9,z9,z9,z9,
z9,z9,z9,z9,z9,z9,z9,z9,z9,z9,z9,z9,
z9,z9,z9,z9,z9,z9,z9,z9,z9,z9,z9,[72,24,72,40,24,0,0,0,72],
z9,z9,z9,z9,z9,z9,z9,z9,z9,z9,z9,z9,
z9,z9,z9,[48,20,48,38,0,22,0,0,48],z9,z9,z9,z9,z9,z9,z9,[96,40,96,0,40,40,0,0,96],
z9,z9,z9,[96,80,0,96,48,96,0,0,96],z9,[58,0,62,40,20,24,0,0,60],[0,76,96,96,60,72,0,0,96],z9,z9,z9,z9,z9,
z9,z9,z9,z9,z9,z9,z9,z9,z9,z9,z9,[8,0,10,0,0,0,10,0,4],
z9,z9,z9,z9,z9,z9,z9,[16,0,16,0,0,0,16,0,16],z9,z9,z9,[72,40,0,24,24,0,72,0,72],
z9,[16,0,16,0,0,0,16,0,16],[0,24,54,24,12,0,54,0,48],z9,z9,z9,z9,z9,z9,z9,z9,[10,0,8,0,0,0,4,0,10],
z9,z9,z9,[38,20,0,12,0,24,38,0,36],z9,[8,0,8,0,0,0,8,0,8],[0,20,38,24,0,12,36,0,38],z9,z9,z9,z9,[54,24,0,0,12,24,48,0,54],
z9,[16,0,16,0,0,0,16,0,16],[0,40,72,0,24,24,72,0,72],z9,z9,[60,0,0,24,20,40,62,0,58],[0,60,0,72,48,72,78,0,78],z9,[0,0,60,40,20,24,58,0,62],z9,z9,z9,
z9,z9,z9,z9,z9,z9,z9,z9,z9,z9,z9,z9,
z9,z9,z9,[38,12,38,20,0,0,0,24,36],z9,z9,z9,z9,z9,z9,z9,[60,24,62,0,20,0,0,40,58],
z9,z9,z9,[96,96,0,80,48,0,0,96,96],z9,[54,0,48,24,12,0,0,24,54],[0,72,78,60,48,0,0,72,78],z9,z9,z9,z9,z9,
z9,z9,z9,[48,22,48,0,0,20,0,38,48],z9,z9,z9,[40,40,0,40,0,40,0,40,40],z9,[36,0,38,24,0,12,0,20,38],[0,50,48,52,0,40,0,50,48],z9,
z9,z9,z9,[96,96,0,0,48,80,0,96,96],z9,[72,0,72,0,24,24,0,40,72],[0,96,96,0,60,60,0,96,96],z9,z9,[96,0,0,96,48,96,0,80,96],[0,96,0,96,48,96,0,96,80],z9,
[0,0,96,96,60,72,0,76,96],z9,z9,z9,z9,z9,z9,z9,z9,z9,z9,[8,0,8,0,0,0,8,0,8],
z9,z9,z9,[48,38,0,20,0,0,48,22,48],z9,[10,0,4,0,0,0,8,0,10],[0,24,36,20,0,0,38,12,38],z9,z9,z9,z9,[58,40,0,0,20,0,62,24,60],
z9,[16,0,16,0,0,0,16,0,16],[0,40,58,0,20,0,60,24,62],z9,z9,[96,0,0,40,40,0,96,40,96],[0,96,0,76,60,0,96,72,96],z9,[0,0,72,40,24,0,72,24,72],z9,z9,z9,
z9,z9,z9,[36,24,0,0,0,20,38,12,38],z9,[4,0,10,0,0,0,10,0,8],[0,38,48,0,0,20,48,22,48],z9,z9,[48,0,0,22,0,38,48,20,48],[0,52,0,50,0,50,48,40,48],z9,
[0,0,48,38,0,22,48,20,48],z9,z9,z9,z9,[72,0,0,0,24,40,72,24,72],[0,96,0,0,60,76,96,72,96],z9,[0,0,96,0,40,40,96,40,96],z9,z9,z9,
[0,0,0,96,60,96,96,60,96],z9,z9,z9,z9,z9,z9,z9,z9]

/-- Certificate: the length-7 distribution of the sweep, as 513 rows of 9. -/
def dist7 : Dist :=
[z9,z9,z9,z9,z9,z9,z9,z9,z9,z9,z9,z9,
z9,z9,z9,z9,z9,z9,z9,z9,z9,z9,z9,z9,
z9,z9,z9,z9,z9,z9,z9,z9,z9,z9,z9,z9,
z9,z9,z9,z9,z9,z9,z9,z9,z9,z9,z9,z9,
z9,z9,z9,z9,z9,z9,z9,z9,z9,z9,z9,z9,
z9,z9,z9,z9,z9,z9,z9,z9,z9,z9,z9,z9,
z9,z9,z9,z9,z9,z9,z9,z9,z9,z9,z9,z9,
z9,z9,z9,z9,z9,z9,z9,z9,z9,z9,z9,z9,
z9,z9,z9,z9,z9,z9,z9,z9,z9,z9,z9,z9,
z9,z9,z9,z9,z9,z9,z9,z9,z9,z9,z9,z9,
z9,z9,z9,z9,z9,z9,z9,[512,264,496,304,224,408,504,0,0],z9,z9,z9,z9,
z9,z9,z9,z9,z9,z9,z9,z9,z9,z9,z9,z9,
z9,z9,z9,z9,z9,z9,z9,z9,z9,z9,z9,z9,
z9,z9,z9,z9,z9,z9,z9,z9,z9,z9,z9,z9,
z9,z9,z9,z9,z9,z9,z9,z9,z9,z9,z9,z9,
z9,z9,z9,z9,z9,z9,z9,z9,z9,z9,z9,[512,408,512,496,288,496,0,504,0],
z9,z9,z9,z9,z9,z9,z9,z9,z9,z9,z9,z9,
z9,z9,z9,z9,z9,z9,z9,z9,z9,z9,z9,z9,
z9,z9,z9,z9,z9,z9,z9,[512,304,504,264,224,0,496,408,0],z9,z9,z9,z9,
z9,z9,z9,z9,z9,z9,z9,z9,z9,z9,z9,[240,148,240,148,0,204,240,204,0],
z9,z9,z9,z9,z9,z9,z9,[416,216,408,0,168,264,400,304,0],z9,z9,z9,[512,496,0,408,288,504,512,496,0],
z9,[416,0,400,216,168,304,408,264,0],[0,512,512,512,240,512,512,512,0],z9,z9,z9,z9,z9,z9,z9,z9,z9,
z9,z9,z9,z9,z9,z9,z9,z9,z9,z9,z9,z9,
z9,z9,z9,z9,z9,z9,z9,z9,z9,z9,z9,z9,
z9,z9,z9,z9,z9,z9,z9,z9,z9,z9,z9,z9,
z9,z9,z9,z9,z9,z9,z9,z9,z9,z9,z9,z9,
z9,z9,z9,z9,z9,z9,z9,[496,264,512,408,224,304,0,0,504],z9,z9,z9,z9,
z9,z9,z9,z9,z9,z9,z9,z9,z9,z9,z9,z9,
z9,z9,z9,z9,z9,z9,z9,z9,z9,z9,z9,z9,
z9,z9,z9,[216,64,232,64,32,0,232,0,216],z9,z9,z9,z9,z9,z9,z9,z9,
z9,z9,z9,z9,z9,z9,z9,[130,32,130,32,0,32,128,0,128],z9,z9,z9,z9,
z9,z9,z9,[232,64,216,0,32,64,216,0,232],z9,z9,z9,[408,264,0,216,168,304,416,0,400],z9,[204,0,204,64,32,64,204,0,204],[0,264,408,304,168,216,400,0,416],z9,
z9,z9,z9,z9,z9,z9,z9,z9,z9,z9,z9,z9,
z9,z9,z9,z9,z9,z9,z9,z9,z9,z9,z9,z9,
z9,z9,z9,z9,z9,z9,z9,[408,216,416,264,168,0,0,304,400],z9,z9,z9,z9,
z9,z9,z9,z9,z9,z9,z9,z9,z9,z9,z9,[240,148,240,204,0,148,0,204,240],
z9,z9,z9,z9,z9,z9,z9,[504,304,512,0,224,264,0,408,496],z9,z9,z9,[512,512,0,512,240,512,0,512,512],
z9,[400,0,416,304,168,216,0,264,408],[0,496,512,504,288,408,0,496,512],z9,z9,z9,z9,z9,z9,z9,z9,z9,
z9,z9,z9,z9,z9,z9,z9,[130,32,128,32,0,0,130,32,128],z9,z9,z9,z9,
z9,z9,z9,[204,64,204,0,32,0,204,64,204],z9,z9,z9,[496,408,0,264,224,0,512,304,504],z9,[232,0,216,64,32,0,216,64,232],[0,304,400,264,168,0,408,216,416],z9,
z9,z9,z9,z9,z9,z9,z9,[128,32,130,0,0,32,128,32,130],z9,z9,z9,[240,204,0,148,0,204,240,148,240],
z9,[128,0,128,32,0,32,130,32,130],[0,204,240,204,0,148,240,148,240],z9,z9,z9,z9,[400,304,0,0,168,264,416,216,408],z9,[216,0,232,0,32,64,232,64,216],[0,408,496,0,224,264,504,304,512],z9,
z9,[504,0,0,304,224,408,512,264,496],[0,504,0,496,288,496,512,408,512],z9,[0,0,504,408,224,304,496,264,512],z9,z9,z9,z9]

/-- Certificate: the length-8 distribution of the sweep, as 513 rows of 9. -/
def dist8 : Dist :=
[z9,z9,z9,z9,z9,z9,z9,z9,z9,z9,z9,z9,
z9,z9,z9,z9,z9,z9,z9,z9,z9,z9,z9,z9,
z9,z9,z9,z9,z9,z9,z9,z9,z9,z9,z9,z9,
z9,z9,z9,z9,z9,z9,z9,z9,z9,z9,z9,z9,
z9,z9,z9,z9,z9,z9,z9,z9,z9,z9,z9,z9,
z9,z9,z9,z9,z9,z9,z9,z9,z9,z9,z9,z9,
z9,z9,z9,z9,z9,z9,z9,z9,z9,z9,z9,z9,
z9,z9,z9,z9,z9,z9,z9,z9,z9,z9,z9,z9,
z9,z9,z9,z9,z9,z9,z9,z9,z9,z9,z9,z9,
z9,z9,z9,z9,z9,z9,z9,z9,z9,z9,z9,z9,
z9,z9,z9,z9,z9,z9,z9,z9,z9,z9,z9,z9,
z9,z9,z9,z9,z9,z9,z9,z9,z9,z9,z9,z9,
z9,z9,z9,z9,z9,z9,z9,z9,z9,z9,z9,z9,
z9,z9,z9,z9,z9,z9,z9,z9,z9,z9,z9,z9,
z9,z9,z9,z9,z9,z9,z9,z9,z9,z9,z9,z9,
z9,z9,z9,z9,z9,z9,z9,z9,z9,z9,z9,z9,
z9,z9,z9,z9,z9,z9,z9,z9,z9,z9,z9,z9,
z9,z9,z9,z9,z9,z9,z9,z9,z9,z9,z9,z9,
z9,z9,z9,z9,z9,z9,z9,z9,z9,z9,z9,z9,
z9,z9,z9,z9,z9,z9,z9,z9,z9,z9,z9,z9,
z9,z9,z9,z9,z9,z9,z9,z9,z9,z9,z9,z9,
z9,z9,z9,[3312,2176,3216,2176,1424,2712,3216,2712,0],z9,z9,z9,z9,z9,z9,z9,z9,
z9,z9,z9,z9,z9,z9,z9,z9,z9,z9,z9,z9,
z9,z9,z9,z9,z9,z9,z9,z9,z9,z9,z9,z9,
z9,z9,z9,z9,z9,z9,z9,z9,z9,z9,z9,z9,
z9,z9,z9,z9,z9,z9,z9,z9,z9,z9,z9,z9,
z9,z9,z9,z9,z9,z9,z9,z9,z9,z9,z9,z9,
z9,z9,z9,z9,z9,z9,z9,z9,z9,z9,z9,z9,
z9,z9,z9,z9,z9,z9,z9,z9,z9,z9,z9,z9,
z9,z9,z9,z9,z9,z9,z9,z9,z9,z9,z9,z9,
z9,z9,z9,z9,z9,z9,z9,z9,z9,z9,z9,z9,
z9,z9,z9,z9,z9,z9,z9,z9,z9,z9,z9,[2176,976,2176,1056,612,1056,2208,0,2208],
z9,z9,z9,z9,z9,z9,z9,z9,z9,z9,z9,z9,
z9,z9,z9,z9,z9,z9,z9,z9,z9,z9,z9,z9,
z9,z9,z9,z9,z9,z9,z9,z9,z9,z9,z9,z9,
z9,z9,z9,z9,z9,z9,z9,z9,z9,z9,z9,z9,
z9,z9,z9,z9,z9,z9,z9,z9,z9,z9,z9,z9,
z9,z9,z9,[3216,2176,3312,2712,1424,2176,0,2712,3216],z9,z9,z9,z9,z9,z9,z9,z9,
z9,z9,z9,z9,z9,z9,z9,z9,z9,z9,z9,z9,
z9,z9,z9,z9,z9,z9,z9,z9,z9,z9,z9,[2176,1056,2208,976,612,0,2176,1056,2208],
z9,z9,z9,z9,z9,z9,z9,z9,z9,z9,z9,z9,
z9,z9,z9,[1184,580,1184,580,0,580,1184,580,1184],z9,z9,z9,z9,z9,z9,z9,[2208,1056,2176,0,612,976,2208,1056,2176],
z9,z9,z9,[3216,2712,0,2176,1424,2712,3312,2176,3216],z9,[2208,0,2208,1056,612,1056,2176,976,2176],[0,2712,3216,2712,1424,2176,3216,2176,3312],z9,z9]

/-- Certificate: the length-9 distribution of the sweep, as 513 rows of 9. -/
def dist9 : Dist :=
[z9,z9,z9,z9,z9,z9,z9,z9,z9,z9,z9,z9,
z9,z9,z9,z9,z9,z9,z9,z9,z9,z9,z9,z9,
z9,z9,z9,z9,z9,z9,z9,z9,z9,z9,z9,z9,
z9,z9,z9,z9,z9,z9,z9,z9,z9,z9,z9,z9,
z9,z9,z9,z9,z9,z9,z9,z9,z9,z9,z9,z9,
z9,z9,z9,z9,z9,z9,z9,z9,z9,z9,z9,z9,
z9,z9,z9,z9,z9,z9,z9,z9,z9,z9,z9,z9,
z9,z9,z9,z9,z9,z9,z9,z9,z9,z9,z9,z9,
z9,z9,z9,z9,z9,z9,z9,z9,z9,z9,z9,z9,
z9,z9,z9,z9,z9,z9,z9,z9,z9,z9,z9,z9,
z9,z9,z9,z9,z9,z9,z9,z9,z9,z9,z9,z9,
z9,z9,z9,z9,z9,z9,z9,z9,z9,z9,z9,z9,
z9,z9,z9,z9,z9,z9,z9,z9,z9,z9,z9,z9,
z9,z9,z9,z9,z9,z9,z9,z9,z9,z9,z9,z9,
z9,z9,z9,z9,z9,z9,z9,z9,z9,z9,z9,z9,
z9,z9,z9,z9,z9,z9,z9,z9,z9,z9,z9,z9,
z9,z9,z9,z9,z9,z9,z9,z9,z9,z9,z9,z9,
z9,z9,z9,z9,z9,z9,z9,z9,z9,z9,z9,z9,
z9,z9,z9,z9,z9,z9,z9,z9,z9,z9,z9,z9,
z9,z9,z9,z9,z9,z9,z9,z9,z9,z9,z9,z9,
z9,z9,z9,z9,z9,z9,z9,z9,z9,z9,z9,z9,
z9,z9,z9,z9,z9,z9,z9,z9,z9,z9,z9,z9,
z9,z9,z9,z9,z9,z9,z9,z9,z9,z9,z9,z9,
z9,z9,z9,z9,z9,z9,z9,z9,z9,z9,z9,z9,
z9,z9,z9,z9,z9,z9,z9,z9,z9,z9,z9,z9,
z9,z9,z9,z9,z9,z9,z9,z9,z9,z9,z9,z9,
z9,z9,z9,z9,z9,z9,z9,z9,z9,z9,z9,z9,
z9,z9,z9,z9,z9,z9,z9,z9,z9,z9,z9,z9,
z9,z9,z9,z9,z9,z9,z9,z9,z9,z9,z9,z9,
z9,z9,z9,z9,z9,z9,z9,z9,z9,z9,z9,z9,
z9,z9,z9,z9,z9,z9,z9,z9,z9,z9,z9,z9,
z9,z9,z9,z9,z9,z9,z9,z9,z9,z9,z9,z9,
z9,z9,z9,z9,z9,z9,z9,z9,z9,z9,z9,z9,
z9,z9,z9,z9,z9,z9,z9,z9,z9,z9,z9,z9,
z9,z9,z9,z9,z9,z9,z9,z9,z9,z9,z9,z9,
z9,z9,z9,z9,z9,z9,z9,z9,z9,z9,z9,z9,
z9,z9,z9,z9,z9,z9,z9,z9,z9,z9,z9,z9,
z9,z9,z9,z9,z9,z9,z9,z9,z9,z9,z9,z9,
z9,z9,z9,z9,z9,z9,z9,z9,z9,z9,z9,z9,
z9,z9,z9,z9,z9,z9,z9,z9,z9,z9,z9,z9,
z9,z9,z9,z9,z9,z9,z9,z9,z9,z9,z9,z9,
z9,z9,z9,z9,z9,z9,z9,z9,z9,z9,z9,z9,
z9,z9,z9,z9,z9,z9,z9,[20944,12468,20944,12468,7056,12468,20944,12468,20944],z9]

end CodePin

/-! Basic `List.getD` / `List.set` toolkit used throughout. -/

namespace CodePin

theorem getD_oob {α : Type} (l : List α) (n : Nat) (d : α) (h : l.length ≤ n) :
    l.getD n d = d := by
  induction l generalizing n with
  | nil => simp [List.getD]
  | cons a t ih =>
    cases n with
    | zero => simp at h
    | succ k => simpa using ih k (by simpa using h)

theorem set_oob {α : Type} (l : List α) (n : Nat) (v : α) (h : l.length ≤ n) :
    l.set n v = l := by
  induction l generalizing n with
  | nil => simp
  | cons a t ih =>
    cases n with
    | zero => simp at h
    | succ k => simpa using ih k (by simpa using h)

theorem getD_set_self {α : Type} (l : List α) (n : Nat) (v : α) (d : α)
    (h : n < l.length) : (l.set n v).getD n d = v := by
  induction l generalizing n with
  | nil => simp at h
  | cons a t ih =>
    cases n with
    | zero => simp
    | succ k => simpa using ih k (by simpa using h)

theorem getD_set_ne {α : Type} (l : List α) (n m : Nat) (v : α) (d : α)
    (h : n ≠ m) : (l.set n v).getD m d = l.getD m d := by
  induction l generalizing n m with
  | nil => simp
  | cons a t ih =>
    cases n with
    | zero =>
      cases m with
      | zero => exact absurd rfl h
      | succ j => simp
    | succ k =>
      cases m with
      | zero => simp
      | succ j => simpa using ih k j (by omega)

theorem getD_mem {α : Type} (l : List α) (n : Nat) (d : α) (h : n < l.length) :
    l.getD n d ∈ l := by
  induction l generalizing n with
  | nil => simp at h
  | cons a t ih =>
    cases n with
    | zero => simp
    | succ k => simpa using Or.inr (ih k (by simpa using h))

theorem mem_getD {α : Type} (l : List α) (r : α) (d : α) (h : r ∈ l) :
    ∃ n, n < l.length ∧ l.getD n d = r := by
  induction l with
  | nil => simp at h
  | cons a t ih =>
    rcases List.mem_cons.mp h with h1 | h2
    · exact ⟨0, by simp, by simp [h1]⟩
    · rcases ih h2 with ⟨n, hn, he⟩
      exact ⟨n + 1, by simpa using hn, by simpa using he⟩

theorem getD_append_left {α : Type} (l₁ l₂ : List α) (n : Nat) (d : α)
    (h : n < l₁.length) : (l₁ ++ l₂).getD n d = l₁.getD n d := by
  induction l₁ generalizing n with
  | nil => simp at h
  | cons a t ih =>
    cases n with
    | zero => simp
    | succ k => simpa using ih k (by simpa using h)

theorem getD_append_right {α : Type} (l₁ l₂ : List α) (n : Nat) (d : α)
    (h : l₁.length ≤ n) : (l₁ ++ l₂).getD n d = l₂.getD (n - l₁.length) d := by
  induction l₁ generalizing n with
  | nil => simp
  | cons a t ih =>
    cases n with
    | zero => simp at h
    | succ k => simpa [Nat.succ_sub_succ] using ih k (by simpa using h)

theorem getD_replicate {α : Type} (k n : Nat) (a d : α) (h : n < k) :
    (List.replicate k a).getD n d = a := by
  induction k generalizing n with
  | zero => omega
  | succ j ih =>
    cases n with
    | zero => simp [List.replicate]
    | succ i => simpa [List.replicate] using ih i (by omega)

theorem getD_drop {α : Type} (l : List α) (k n : Nat) (d : α) :
    (l.drop k).getD n d = l.getD (k + n) d := by
  induction l generalizing k with
  | nil => simp [List.getD]
  | cons a t ih =>
    cases k with
    | zero => simp
    | succ j =>
      have hjn : j + 1 + n = (j + n) + 1 := by omega
      simp [hjn, ih j]

theorem getD_map {α β : Type} (f : α → β) (l : List α) (n : Nat) (da : α)
    (db : β) (h : n < l.length) : (l.map f).getD n db = f (l.getD n da) := by
  induction l generalizing n with
  | nil => simp at h
  | cons a t ih =>
    cases n with
    | zero => simp
    | succ k => simpa using ih k (by simpa using h)

theorem getD_zipWith {α β γ : Type} (f : α → β → γ) (as : List α) (bs : List β)
    (n : Nat) (da : α) (db : β) (dc : γ) (h₁ : n < as.length)
    (h₂ : n < bs.length) :
    (List.zipWith f as bs).getD n dc = f (as.getD n da) (bs.getD n db) := by
  induction as generalizing bs n with
  | nil => simp at h₁
  | cons a ta ih =>
    cases bs with
    | nil => simp at h₂
    | cons b tb =>
      cases n with
      | zero => simp
      | succ k =>
        simpa using ih tb k (by simpa using h₁) (by simpa using h₂)

theorem length_zipW3 {α β γ δ : Type} (f : α → β → γ → δ) (as : List α)
    (bs : List β) (cs : List γ) :
    (zipW3 f as bs cs).length = min (min as.length bs.length) cs.length := by
  induction as generalizing bs cs with
  | nil => simp [zipW3]
  | cons a ta ih =>
    cases bs with
    | nil => simp [zipW3]
    | cons b tb =>
      cases cs with
      | nil => simp [zipW3]
      | cons c tc =>
        simp [zipW3, ih tb tc]
        omega

theorem getD_zipW3 {α β γ δ : Type} (f : α → β → γ → δ) (as : List α)
    (bs : List β) (cs : List γ) (n : Nat) (da : α) (db : β) (dc : γ) (dd : δ)
    (h₁ : n < as.length) (h₂ : n < bs.length) (h₃ : n < cs.length) :
    (zipW3 f as bs cs).getD n dd = f (as.getD n da) (bs.getD n db) (cs.getD n dc) := by
  induction as generalizing bs cs n with
  | nil => simp at h₁
  | cons a ta ih =>
    cases bs with
    | nil => simp at h₂
    | cons b tb =>
      cases cs with
      | nil => simp at h₃
      | cons c tc =>
        cases n with
        | zero => simp [zipW3]
        | succ k =>
          simpa [zipW3] using
            ih tb tc k (by simpa using h₁) (by simpa using h₂) (by simpa using h₃)

theorem ext_getD {α : Type} (l₁ l₂ : List α) (d : α)
    (hlen : l₁.length = l₂.length) (h : ∀ n, l₁.getD n d = l₂.getD n d) :
    l₁ = l₂ := by
  induction l₁ generalizing l₂ with
  | nil =>
    cases l₂ with
    | nil => rfl
    | cons b tb => simp at hlen
  | cons a ta ih =>
    cases l₂ with
    | nil => simp at hlen
    | cons b tb =>
      have h0 := h 0
      simp at h0
      have : ta = tb := ih tb (by simpa using hlen) fun n => by simpa using h (n + 1)
      rw [h0, this]

end CodePin

/-! Sums, shapes and the pointwise formula of the push-style `next_step`. -/

namespace CodePin

theorem sum_zero_of (l : List Nat) (h : ∀ x ∈ l, x = 0) : l.sum = 0 := by
  induction l with
  | nil => rfl
  | cons a t ih =>
    have ha := h a (by simp)
    have ht := ih fun x hx => h x (by simp [hx])
    simp [ha, ht]

theorem sum_list_range (f : Nat → Nat) (n : Nat) :
    ((List.range n).map f).sum = Finset.sum (Finset.range n) f := by
  induction n with
  | zero => simp
  | succ k ih => simp [List.range_succ, Finset.sum_range_succ, ih]

theorem apc_eq : all_positions_count = 4617 := rfl

theorem rows_eq : rowsCount = 513 := rfl

theorem shl_eq (c : Nat) : (1 <<< c) = 2 ^ c := by
  simp [Nat.shiftLeft_eq]

theorem base_mk (m c : Nat) (hc : c < 9) : base (9 * m + c) = m := by
  simp only [base]; omega

theorem last_mk (m c : Nat) (hc : c < 9) : last_swiped (9 * m + c) = c := by
  simp only [last_swiped]; omega

theorem base_lt (j : Nat) (hj : j < all_positions_count) : base j < rowsCount := by
  rw [apc_eq] at hj; rw [rows_eq]; simp only [base]; omega

theorem last_lt (j : Nat) : last_swiped j < 9 := by
  simp only [last_swiped]; omega

theorem entry_statesDefault (j : Nat) : entry statesDefault j = 0 := by
  by_cases hb : base j < rowsCount
  · have h1 : (statesDefault.getD (base j) []) = List.replicate 9 0 := by
      apply getD_replicate
      simpa [statesDefault] using hb
    by_cases hl : last_swiped j < 9
    · simp only [entry, h1]
      rw [getD_replicate]
      exact hl
    · simp only [entry, h1]
      rw [getD_oob]
      simpa using Nat.le_of_not_lt hl
  · simp only [entry]
    rw [getD_oob statesDefault (base j) [] (by simpa [statesDefault] using Nat.le_of_not_lt hb)]
    simp [List.getD]

theorem shape_statesDefault : ShapeOK statesDefault := by
  constructor
  · simp [statesDefault]
  · intro n hn
    simp only [statesDefault]
    rw [getD_replicate]
    · simp
    · simpa [statesDefault] using hn

theorem entry_setEntry (a : Dist) (h : ShapeOK a) (j j' v : Nat)
    (hj : j < all_positions_count) :
    entry (setEntry a j' v) j = if j = j' then v else entry a j := by
  by_cases hjj : j = j'
  · subst hjj
    simp only [entry, setEntry, if_pos rfl]
    have hb : base j < a.length := by rw [h.1]; exact base_lt j hj
    rw [getD_set_self a (base j) _ [] hb]
    apply getD_set_self
    rw [h.2 (base j) (by rw [← h.1]; exact hb)]
    exact last_lt j
  · rw [if_neg hjj]
    by_cases hb : base j' = base j
    · have hl : last_swiped j' ≠ last_swiped j := by
        intro he
        apply hjj
        have e1 : j = 9 * base j + last_swiped j := by
          simp only [base, last_swiped]; omega
        have e2 : j' = 9 * base j' + last_swiped j' := by
          simp only [base, last_swiped]; omega
        omega
      by_cases hlen : base j' < a.length
      · simp only [entry, setEntry, hb]
        rw [getD_set_self a (base j) _ [] (hb ▸ hlen)]
        rw [getD_set_ne _ _ _ _ _ hl]
      · simp only [entry, setEntry]
        rw [set_oob a (base j') _ (Nat.le_of_not_lt hlen)]
    · simp only [entry, setEntry]
      rw [getD_set_ne _ _ _ _ _ hb]

theorem shape_setEntry (a : Dist) (h : ShapeOK a) (i v : Nat) :
    ShapeOK (setEntry a i v) := by
  constructor
  · simp [setEntry, h.1]
  · intro n hn
    by_cases hb : base i = n
    · subst hb
      by_cases hlen : base i < a.length
      · simp only [setEntry]
        rw [getD_set_self a (base i) _ [] hlen]
        rw [List.length_set]
        exact h.2 (base i) hn
      · simp only [setEntry]
        rw [set_oob a (base i) _ (Nat.le_of_not_lt hlen)]
        exact h.2 (base i) hn
    · simp only [setEntry]
      rw [getD_set_ne _ _ _ _ _ hb]
      exact h.2 n hn

theorem entry_addEntry (a : Dist) (h : ShapeOK a) (j j' v : Nat)
    (hj : j < all_positions_count) :
    entry (addEntry a j' v) j = entry a j + if j = j' then v else 0 := by
  simp only [addEntry]
  rw [entry_setEntry a h j j' _ hj]
  by_cases hjj : j = j'
  · subst hjj; simp
  · simp [hjj]

theorem shape_addEntry (a : Dist) (h : ShapeOK a) (i v : Nat) :
    ShapeOK (addEntry a i v) := shape_setEntry a h i _

end CodePin

namespace CodePin

theorem shape_pushFold (i cnt : Nat) (cs : List Nat) (a : Dist) (h : ShapeOK a) :
    ShapeOK (cs.foldl (pushBody i cnt) a) := by
  induction cs generalizing a with
  | nil => exact h
  | cons c cs ih =>
    simp only [List.foldl_cons]
    apply ih
    simp only [pushBody]
    cases hsw : swipe_to i c with
    | none => exact h
    | some j => exact shape_addEntry a h j cnt

theorem shape_push1 (acc : Dist) (h : ShapeOK acc) (i cnt : Nat) :
    ShapeOK (push1 acc i cnt) := shape_pushFold i cnt _ acc h

theorem entry_pushFold (i cnt j : Nat) (hj : j < all_positions_count)
    (cs : List Nat) (a : Dist) (h : ShapeOK a) :
    entry (cs.foldl (pushBody i cnt) a) j
      = entry a j + (cs.map fun c => if swipe_to i c = some j then cnt else 0).sum := by
  induction cs generalizing a with
  | nil => simp
  | cons c cs ih =>
    simp only [List.foldl_cons, List.map_cons, List.sum_cons]
    cases hsw : swipe_to i c with
    | none =>
      have hb : pushBody i cnt a c = a := by simp [pushBody, hsw]
      rw [hb, ih a h, if_neg (by simp [hsw])]
      omega
    | some j' =>
      have hb : pushBody i cnt a c = addEntry a j' cnt := by simp [pushBody, hsw]
      rw [hb, ih _ (shape_addEntry a h j' cnt), entry_addEntry a h j j' cnt hj]
      rcases eq_or_ne j j' with hjj | hjj
      · subst hjj; simp; omega
      · have hne : ¬(some j' = some j) := by
          simp only [Option.some.injEq]
          exact Ne.symm hjj
        rw [if_neg hjj, if_neg hne]
        omega

theorem entry_push1 (acc : Dist) (h : ShapeOK acc) (i cnt j : Nat)
    (hj : j < all_positions_count) :
    entry (push1 acc i cnt) j
      = entry acc j
        + ((List.range 9).map fun c => if swipe_to i c = some j then cnt else 0).sum :=
  entry_pushFold i cnt j hj _ acc h

theorem shape_nsFold (d : Dist) (is : List Nat) (a : Dist) (h : ShapeOK a) :
    ShapeOK (is.foldl (nsBody d) a) := by
  induction is generalizing a with
  | nil => exact h
  | cons i is ih =>
    simp only [List.foldl_cons]
    apply ih
    simp only [nsBody]
    by_cases hz : entry d i = 0
    · simp [hz, h]
    · simp only [if_neg hz]
      exact shape_push1 a h i (entry d i)

theorem shape_next_step (d : Dist) : ShapeOK (next_step d) :=
  shape_nsFold d _ statesDefault shape_statesDefault

theorem entry_nsFold (d : Dist) (j : Nat) (hj : j < all_positions_count)
    (is : List Nat) (a : Dist) (h : ShapeOK a) :
    entry (is.foldl (nsBody d) a) j
      = entry a j
        + (is.map fun i =>
            ((List.range 9).map fun c =>
              if swipe_to i c = some j then entry d i else 0).sum).sum := by
  induction is generalizing a with
  | nil => simp
  | cons i is ih =>
    simp only [List.foldl_cons, List.map_cons, List.sum_cons]
    by_cases hz : entry d i = 0
    · have hb : nsBody d a i = a := by simp [nsBody, hz]
      have hzero :
          ((List.range 9).map fun c =>
            if swipe_to i c = some j then entry d i else 0).sum = 0 := by
        apply sum_zero_of
        intro x hx
        rcases List.mem_map.mp hx with ⟨c, hc, he⟩
        rw [← he, hz]
        simp
      rw [hb, ih a h, hzero]
      omega
    · have hb : nsBody d a i = push1 a i (entry d i) := by simp [nsBody, hz]
      rw [hb, ih _ (shape_push1 a h i (entry d i)),
        entry_push1 a h i (entry d i) j hj]
      omega

theorem entry_next_step (d : Dist) (j : Nat) (hj : j < all_positions_count) :
    entry (next_step d) j
      = ((List.range all_positions_count).map fun i =>
          ((List.range 9).map fun c =>
            if swipe_to i c = some j then entry d i else 0).sum).sum := by
  have h := entry_nsFold d j hj (List.range all_positions_count) statesDefault
    shape_statesDefault
  simpa [entry_statesDefault, next_step] using h

end CodePin

/-! Characterization of `swipe_to` and bounded bit facts. -/

namespace CodePin

theorem swipe_some (i c j : Nat) :
    swipe_to i c = some j ↔
      is_swiped i c = false ∧ blocked i c = false
        ∧ j = 9 * (base i + (1 <<< c)) + c := by
  constructor
  all_goals simp only [swipe_to, index_of_point]
  · intro h
    by_cases h1 : is_swiped i c
    · simp [h1] at h
    · by_cases h2 : blocked i c
      · simp [h1, h2] at h
      · simp [h1, h2] at h
        refine ⟨by simpa using h1, by simpa using h2, by omega⟩
  · rintro ⟨h1, h2, h3⟩
    simp [h1, h2]
    omega

theorem getD_range (k n : Nat) (h : n < k) : (List.range k).getD n 0 = n := by
  induction k with
  | zero => omega
  | succ j ih =>
    rw [List.range_succ]
    by_cases hj : n < j
    · rw [getD_append_left _ _ _ _ (by simpa using hj)]
      exact ih hj
    · have : n = j := by omega
      subst this
      rw [getD_append_right _ _ _ _ (by simp)]
      simp

theorem allZip_spec {α β : Type} (f : α → β → Bool) (as : List α) (bs : List β)
    (h : (List.zipWith f as bs).all (fun b => b) = true) (n : Nat) (da : α)
    (db : β) (h₁ : n < as.length) (h₂ : n < bs.length) :
    f (as.getD n da) (bs.getD n db) = true := by
  have hlen : n < (List.zipWith f as bs).length := by
    rw [List.length_zipWith]; omega
  have hmem := getD_mem _ n false hlen
  have hx := List.all_eq_true.mp h _ hmem
  rwa [getD_zipWith f as bs n da db false h₁ h₂] at hx

theorem allRange2_spec (f : Nat → Nat → Bool) (n₁ n₂ : Nat)
    (h : ((List.range n₁).all fun a => (List.range n₂).all fun b => f a b) = true)
    (a b : Nat) (ha : a < n₁) (hb : b < n₂) : f a b = true := by
  have h1 := List.all_eq_true.mp h a (List.mem_range.mpr ha)
  exact List.all_eq_true.mp h1 b (List.mem_range.mpr hb)

set_option maxRecDepth 40000 in
theorem bitsTable_length : bitsTable.length = rowsCount := rfl

set_option maxRecDepth 40000 in
theorem bits_spec_bool :
    ((List.zipWith
        (fun mp bits => (List.range 9).all fun t =>
          bits.getD t false == (mp &&& (1 <<< t) != 0))
        (List.range rowsCount) bitsTable).all fun b => b) = true := rfl

theorem bits_spec (mp t : Nat) (hmp : mp < rowsCount) (ht : t < 9) :
    (bitsTable.getD mp []).getD t false = (mp &&& (1 <<< t) != 0) := by
  have h₁ : mp < (List.range rowsCount).length := by simpa using hmp
  have h₂ : mp < bitsTable.length := by rw [bitsTable_length]; exact hmp
  have h := allZip_spec _ _ _ bits_spec_bool mp 0 [] h₁ h₂
  rw [getD_range _ _ hmp] at h
  have h2 := List.all_eq_true.mp h t (List.mem_range.mpr ht)
  exact eq_of_beq h2

set_option maxRecDepth 40000 in
theorem bfa_bool :
    ((List.range rowsCount).all fun b => (List.range 9).all fun c =>
      (b &&& (1 <<< c) != 0) || ((b + (1 <<< c)) &&& (1 <<< c) != 0)) = true := rfl

theorem bit_add_pow (b c : Nat) (hb : b < rowsCount) (hc : c < 9)
    (h : b &&& (1 <<< c) = 0) : (b + (1 <<< c)) &&& (1 <<< c) ≠ 0 := by
  have hx := allRange2_spec _ _ _ bfa_bool b c hb hc
  simp only [h] at hx
  simp at hx
  exact hx

set_option maxRecDepth 40000 in
theorem bfb_bool :
    ((List.range rowsCount).all fun m => (List.range 9).all fun c =>
      !(m &&& (1 <<< c) != 0)
        || (((m - (1 <<< c)) &&& (1 <<< c) == 0) && Nat.ble (1 <<< c) m)) = true := rfl

theorem bit_sub_pow (m c : Nat) (hm : m < rowsCount) (hc : c < 9)
    (h : m &&& (1 <<< c) ≠ 0) :
    (m - (1 <<< c)) &&& (1 <<< c) = 0 ∧ (1 <<< c) ≤ m := by
  have hx := allRange2_spec _ _ _ bfb_bool m c hm hc
  simp [h] at hx
  exact ⟨hx.1, hx.2⟩

set_option maxRecDepth 40000 in
theorem bflt_bool :
    ((List.range rowsCount).all fun m => (List.range 9).all fun c =>
      !(Nat.blt m (1 <<< c)) || (m &&& (1 <<< c) == 0)) = true := rfl

theorem bit_of_lt (m c : Nat) (hm : m < rowsCount) (hc : c < 9)
    (h : m < (1 <<< c)) : m &&& (1 <<< c) = 0 := by
  have hx := allRange2_spec _ _ _ bflt_bool m c hm hc
  have hb : Nat.blt m (1 <<< c) = true := by
    exact Nat.blt_eq.mpr h
  rw [hb] at hx
  simpa using hx

set_option maxRecDepth 40000 in
theorem through_lt_bool :
    ((List.range 9).all fun p => (List.range 9).all fun c =>
      match through p c with
      | some t => Nat.blt t 9
      | none => true) = true := rfl

theorem through_lt (p c t : Nat) (hp : p < 9) (hc : c < 9)
    (h : through p c = some t) : t < 9 := by
  have hx := allRange2_spec _ _ _ through_lt_bool p c hp hc
  rw [h] at hx
  exact Nat.blt_eq.mp hx

theorem z9_getD (p : Nat) : z9.getD p 0 = 0 := by
  rcases p with _ | _ | _ | _ | _ | _ | _ | _ | _ | n <;> simp [z9, List.getD]

end CodePin

/-! Collapsing the push formula to the nine predecessors of a target. -/

namespace CodePin

theorem inner_collapse (d : Dist) (i m c : Nat) (hc : c < 9) :
    ((List.range 9).map fun cp =>
      if swipe_to i cp = some (9 * m + c) then entry d i else 0).sum
    = if swipe_to i c = some (9 * m + c) then entry d i else 0 := by
  rw [sum_list_range]
  apply Finset.sum_eq_single c
  · intro cp hcp hne
    by_cases hs : swipe_to i cp = some (9 * m + c)
    · exfalso
      apply hne
      have hcp9 : cp < 9 := Finset.mem_range.mp hcp
      obtain ⟨_, _, hj⟩ := (swipe_some i cp _).mp hs
      omega
    · simp [hs]
  · intro hch
    exact absurd (Finset.mem_range.mpr hc) hch

theorem outer_window (d : Dist) (m c : Nat) (hm : m < rowsCount) (hc : c < 9) :
    ((List.range all_positions_count).map fun i =>
      if swipe_to i c = some (9 * m + c) then entry d i else 0).sum
    = if m &&& (1 <<< c) = 0 then 0
      else ((List.range 9).map fun p =>
        if swipe_to (9 * (m - (1 <<< c)) + p) c = some (9 * m + c)
        then entry d (9 * (m - (1 <<< c)) + p) else 0).sum := by
  rw [sum_list_range]
  by_cases hbit : m &&& (1 <<< c) = 0
  · rw [if_pos hbit]
    apply Finset.sum_eq_zero
    intro i hi
    by_cases hs : swipe_to i c = some (9 * m + c)
    · exfalso
      obtain ⟨h1, _, hj⟩ := (swipe_some i c _).mp hs
      have hb0 : base i &&& (1 <<< c) = 0 := by
        simp only [is_swiped] at h1
        simpa using h1
      have hblt : base i < rowsCount :=
        base_lt i (Finset.mem_range.mp hi)
      have hcontra := bit_add_pow (base i) c hblt hc hb0
      have hbase : base i + (1 <<< c) = m := by omega
      rw [hbase] at hcontra
      exact hcontra hbit
    · simp [hs]
  · rw [if_neg hbit]
    obtain ⟨hmp0, hle⟩ := bit_sub_pow m c hm hc hbit
    have hmplt : m - (1 <<< c) < rowsCount := lt_of_le_of_lt (Nat.sub_le _ _) hm
    rw [sum_list_range]
    have hsub : (Finset.range 9).image (fun p => 9 * (m - (1 <<< c)) + p)
        ⊆ Finset.range all_positions_count := by
      intro x hx
      rcases Finset.mem_image.mp hx with ⟨p, hp, he⟩
      have hp9 : p < 9 := Finset.mem_range.mp hp
      rw [apc_eq]
      rw [rows_eq] at hmplt
      refine Finset.mem_range.mpr ?_
      omega
    have hvan : ∀ i ∈ Finset.range all_positions_count,
        i ∉ (Finset.range 9).image (fun p => 9 * (m - (1 <<< c)) + p) →
        (if swipe_to i c = some (9 * m + c) then entry d i else 0) = 0 := by
      intro i hi hni
      by_cases hs : swipe_to i c = some (9 * m + c)
      · exfalso
        obtain ⟨_, _, hj⟩ := (swipe_some i c _).mp hs
        apply hni
        have hbase : base i = m - (1 <<< c) := by omega
        refine Finset.mem_image.mpr ⟨i % 9, Finset.mem_range.mpr (by omega), ?_⟩
        simp only [base] at hbase
        omega
      · simp [hs]
    rw [← Finset.sum_subset hsub hvan]
    rw [Finset.sum_image (by intro p₁ h₁ p₂ h₂ he; omega)]

end CodePin

/-! The fast transition computes the same predecessor sums. -/

namespace CodePin

theorem selC_length (c : Nat) : (selC c).length = rowsCount := by
  simp [selC, bitsTable_length]

theorem shl_le (c : Nat) (hc : c < 9) : (1 <<< c) ≤ 256 := by
  rw [Nat.shiftLeft_eq, one_mul]
  calc (2 : Nat) ^ c ≤ 2 ^ 8 := Nat.pow_le_pow_right (by norm_num) (by omega)
  _ = 256 := by norm_num

theorem length_colC (c : Nat) (hc : c < 9) (d : Dist) (hd : d.length = rowsCount) :
    (colC c d).length = rowsCount := by
  have hB := shl_le c hc
  simp only [colC, List.length_append, List.length_replicate, length_zipW3,
    List.length_drop, selC_length, bitsTable_length, hd]
  rw [rows_eq]
  generalize hX : (1 <<< c) = X
  rw [hX] at hB
  omega

theorem colC_getD (d : Dist) (hdlen : d.length = rowsCount) (m c : Nat)
    (hm : m < rowsCount) (hc : c < 9) :
    (colC c d).getD m 0
      = if m &&& (1 <<< c) = 0 then 0
        else colVal (d.getD (m - (1 <<< c)) []) (bitsTable.getD (m - (1 <<< c)) []) c := by
  by_cases hmB : m < (1 <<< c)
  · simp only [colC]
    rw [getD_append_left _ _ _ _ (by simpa using hmB)]
    rw [getD_replicate _ _ _ _ hmB]
    rw [if_pos (bit_of_lt m c hm hc hmB)]
  · have hB : (1 <<< c) ≤ m := Nat.le_of_not_lt hmB
    simp only [colC]
    rw [getD_append_right _ _ _ _ (by simpa using hB)]
    simp only [List.length_replicate]
    have hb1 : m - (1 <<< c) < (List.drop (1 <<< c) (selC c)).length := by
      rw [List.length_drop, selC_length]
      omega
    have hb2 : m - (1 <<< c) < bitsTable.length := by
      rw [bitsTable_length]
      exact lt_of_le_of_lt (Nat.sub_le _ _) hm
    have hb3 : m - (1 <<< c) < d.length := by
      rw [hdlen]
      exact lt_of_le_of_lt (Nat.sub_le _ _) hm
    rw [getD_zipW3 _ _ _ _ _ false [] [] 0 hb1 hb2 hb3]
    rw [getD_drop]
    have hBm : (1 <<< c) + (m - (1 <<< c)) = m := by omega
    rw [hBm]
    rw [selC, getD_map _ _ _ [] _ (by rw [bitsTable_length]; exact hm)]
    rw [bits_spec m c hm hc]
    by_cases hbit : m &&& (1 <<< c) = 0
    · simp [hbit]
    · simp [hbit]

theorem zipWith_points {γ : Type} (f : Nat → Nat → γ) (row : List Nat)
    (hrow : row.length = 9) :
    List.zipWith f points row = (List.range 9).map fun p => f p (row.getD p 0) := by
  obtain _ | ⟨a₀, row⟩ := row
  · simp at hrow
  obtain _ | ⟨a₁, row⟩ := row
  · simp at hrow
  obtain _ | ⟨a₂, row⟩ := row
  · simp at hrow
  obtain _ | ⟨a₃, row⟩ := row
  · simp at hrow
  obtain _ | ⟨a₄, row⟩ := row
  · simp at hrow
  obtain _ | ⟨a₅, row⟩ := row
  · simp at hrow
  obtain _ | ⟨a₆, row⟩ := row
  · simp at hrow
  obtain _ | ⟨a₇, row⟩ := row
  · simp at hrow
  obtain _ | ⟨a₈, row⟩ := row
  · simp at hrow
  obtain _ | ⟨a₉, row⟩ := row
  · rfl
  · simp at hrow

theorem colVal_eq_sum (d : Dist) (hd : ShapeOK d) (m c : Nat) (hm : m < rowsCount)
    (hc : c < 9) (hbit : m &&& (1 <<< c) ≠ 0) :
    colVal (d.getD (m - (1 <<< c)) []) (bitsTable.getD (m - (1 <<< c)) []) c
      = ((List.range 9).map fun p =>
          if swipe_to (9 * (m - (1 <<< c)) + p) c = some (9 * m + c)
          then entry d (9 * (m - (1 <<< c)) + p) else 0).sum := by
  obtain ⟨hmp0, hle⟩ := bit_sub_pow m c hm hc hbit
  have hmplt : m - (1 <<< c) < rowsCount := lt_of_le_of_lt (Nat.sub_le _ _) hm
  have hrowlen : (d.getD (m - (1 <<< c)) []).length = 9 := hd.2 _ hmplt
  have hterm : ∀ p, p < 9 →
      (if swipe_to (9 * (m - (1 <<< c)) + p) c = some (9 * m + c)
       then entry d (9 * (m - (1 <<< c)) + p) else 0)
      = (if legalS (bitsTable.getD (m - (1 <<< c)) []) p c
         then (d.getD (m - (1 <<< c)) []).getD p 0 else 0) := by
    intro p hp
    have hbase : base (9 * (m - (1 <<< c)) + p) = m - (1 <<< c) := base_mk _ p hp
    have hlast : last_swiped (9 * (m - (1 <<< c)) + p) = p := last_mk _ p hp
    have hentry : entry d (9 * (m - (1 <<< c)) + p)
        = (d.getD (m - (1 <<< c)) []).getD p 0 := by
      simp only [entry, hbase, hlast]
    have hsw : is_swiped (9 * (m - (1 <<< c)) + p) c = false := by
      simp only [is_swiped, hbase]
      simpa using hmp0
    have hcond : (swipe_to (9 * (m - (1 <<< c)) + p) c = some (9 * m + c))
        ↔ (legalS (bitsTable.getD (m - (1 <<< c)) []) p c = true) := by
      rw [swipe_some]
      constructor
      · rintro ⟨_, hbl, _⟩
        simp only [blocked, hlast] at hbl
        simp only [legalS]
        cases ht : through p c with
        | none => rfl
        | some t =>
          rw [ht] at hbl
          have hbl2 : (!is_swiped (9 * (m - (1 <<< c)) + p) t) = false := hbl
          have ht9 : t < 9 := through_lt p c t hp hc ht
          show (bitsTable.getD (m - (1 <<< c)) []).getD t false = true
          rw [bits_spec _ t hmplt ht9]
          simp only [is_swiped, hbase] at hbl2
          simpa using hbl2
      · intro hleg
        refine ⟨hsw, ?_, by rw [hbase]; omega⟩
        simp only [blocked, hlast]
        simp only [legalS] at hleg
        cases ht : through p c with
        | none => rfl
        | some t =>
          rw [ht] at hleg
          have ht9 : t < 9 := through_lt p c t hp hc ht
          have hleg2 : (bitsTable.getD (m - (1 <<< c)) []).getD t false = true := hleg
          rw [bits_spec _ t hmplt ht9] at hleg2
          show (!is_swiped (9 * (m - (1 <<< c)) + p) t) = false
          simp only [is_swiped, hbase]
          simpa using hleg2
    by_cases hs : swipe_to (9 * (m - (1 <<< c)) + p) c = some (9 * m + c)
    · rw [if_pos hs, if_pos (hcond.mp hs), hentry]
    · rw [if_neg hs, if_neg (fun hl => hs (hcond.mpr hl))]
  simp only [colVal]
  by_cases hz : (d.getD (m - (1 <<< c)) []) == z9
  · simp only [hz, if_true]
    have heq : d.getD (m - (1 <<< c)) [] = z9 := eq_of_beq hz
    symm
    apply sum_zero_of
    intro x hx
    rcases List.mem_map.mp hx with ⟨p, hp, he⟩
    have hp9 : p < 9 := List.mem_range.mp hp
    rw [← he, hterm p hp9, heq]
    by_cases hl : legalS (bitsTable.getD (m - (1 <<< c)) []) p c
    · rw [if_pos hl, z9_getD]
    · rw [if_neg hl]
  · simp only [hz, if_false]
    rw [zipWith_points _ _ hrowlen]
    apply congrArg List.sum
    apply List.map_congr_left
    intro p hp
    exact (hterm p (List.mem_range.mp hp)).symm

end CodePin

/-! Assembling the fast transition and the equivalence theorem. -/

namespace CodePin

theorem tower_getD (d : Dist) (hdlen : d.length = rowsCount) (m : Nat)
    (hm : m < rowsCount) :
    (next_step_fast d).getD m []
      = [(colC 0 d).getD m 0, (colC 1 d).getD m 0, (colC 2 d).getD m 0,
         (colC 3 d).getD m 0, (colC 4 d).getD m 0, (colC 5 d).getD m 0,
         (colC 6 d).getD m 0, (colC 7 d).getD m 0, (colC 8 d).getD m 0] := by
  have hl : ∀ c, c < 9 → (colC c d).length = rowsCount := fun c hc =>
    length_colC c hc d hdlen
  have hm8 : m < ((colC 8 d).map fun v => [v]).length := by
    rw [List.length_map, hl 8 (by norm_num)]; exact hm
  have t8 : ((colC 8 d).map fun v => [v]).getD m [] = [(colC 8 d).getD m 0] :=
    getD_map _ _ m 0 [] (by rw [hl 8 (by norm_num)]; exact hm)
  have hz : ∀ (xs : List Nat) (ys : List (List Nat)), m < xs.length →
      m < ys.length → (List.zipWith List.cons xs ys).getD m []
        = xs.getD m 0 :: ys.getD m [] := fun xs ys hx hy =>
    getD_zipWith List.cons xs ys m 0 [] [] hx hy
  have hlen8 : m < ((colC 8 d).map fun v => [v]).length := hm8
  simp only [next_step_fast]
  rw [hz _ _ (by rw [hl 0 (by norm_num)]; exact hm)
      (by simp only [List.length_zipWith, List.length_map]
          rw [hl 1 (by norm_num), hl 2 (by norm_num), hl 3 (by norm_num),
            hl 4 (by norm_num), hl 5 (by norm_num), hl 6 (by norm_num),
            hl 7 (by norm_num), hl 8 (by norm_num)]
          simpa using hm)]
  rw [hz _ _ (by rw [hl 1 (by norm_num)]; exact hm)
      (by simp only [List.length_zipWith, List.length_map]
          rw [hl 2 (by norm_num), hl 3 (by norm_num), hl 4 (by norm_num),
            hl 5 (by norm_num), hl 6 (by norm_num), hl 7 (by norm_num),
            hl 8 (by norm_num)]
          simpa using hm)]
  rw [hz _ _ (by rw [hl 2 (by norm_num)]; exact hm)
      (by simp only [List.length_zipWith, List.length_map]
          rw [hl 3 (by norm_num), hl 4 (by norm_num), hl 5 (by norm_num),
            hl 6 (by norm_num), hl 7 (by norm_num), hl 8 (by norm_num)]
          simpa using hm)]
  rw [hz _ _ (by rw [hl 3 (by norm_num)]; exact hm)
      (by simp only [List.length_zipWith, List.length_map]
          rw [hl 4 (by norm_num), hl 5 (by norm_num), hl 6 (by norm_num),
            hl 7 (by norm_num), hl 8 (by norm_num)]
          simpa using hm)]
  rw [hz _ _ (by rw [hl 4 (by norm_num)]; exact hm)
      (by simp only [List.length_zipWith, List.length_map]
          rw [hl 5 (by norm_num), hl 6 (by norm_num), hl 7 (by norm_num),
            hl 8 (by norm_num)]
          simpa using hm)]
  rw [hz _ _ (by rw [hl 5 (by norm_num)]; exact hm)
      (by simp only [List.length_zipWith, List.length_map]
          rw [hl 6 (by norm_num), hl 7 (by norm_num), hl 8 (by norm_num)]
          simpa using hm)]
  rw [hz _ _ (by rw [hl 6 (by norm_num)]; exact hm)
      (by simp only [List.length_zipWith, List.length_map]
          rw [hl 7 (by norm_num), hl 8 (by norm_num)]
          simpa using hm)]
  rw [hz _ _ (by rw [hl 7 (by norm_num)]; exact hm)
      (by simp only [List.length_zipWith, List.length_map]
          rw [hl 8 (by norm_num)]
          simpa using hm)]
  rw [t8]

theorem shape_fast (d : Dist) (hd : ShapeOK d) : ShapeOK (next_step_fast d) := by
  have hl : ∀ c, c < 9 → (colC c d).length = rowsCount := fun c hc =>
    length_colC c hc d hd.1
  constructor
  · simp only [next_step_fast, List.length_zipWith, List.length_map]
    rw [hl 0 (by norm_num), hl 1 (by norm_num), hl 2 (by norm_num),
      hl 3 (by norm_num), hl 4 (by norm_num), hl 5 (by norm_num),
      hl 6 (by norm_num), hl 7 (by norm_num), hl 8 (by norm_num)]
    simp
  · intro n hn
    rw [tower_getD d hd.1 n hn]
    rfl

theorem dist_ext (d₁ d₂ : Dist) (h₁ : ShapeOK d₁) (h₂ : ShapeOK d₂)
    (h : ∀ m c, m < rowsCount → c < 9 →
      entry d₁ (9 * m + c) = entry d₂ (9 * m + c)) :
    d₁ = d₂ := by
  apply ext_getD d₁ d₂ [] (by rw [h₁.1, h₂.1])
  intro n
  by_cases hn : n < rowsCount
  · apply ext_getD _ _ 0 (by rw [h₁.2 n hn, h₂.2 n hn])
    intro k
    by_cases hk : k < 9
    · have hnk := h n k hn hk
      simpa only [entry, base_mk n k hk, last_mk n k hk] using hnk
    · rw [getD_oob _ _ _ (by rw [h₁.2 n hn]; omega),
        getD_oob _ _ _ (by rw [h₂.2 n hn]; omega)]
  · rw [getD_oob _ _ _ (by rw [h₁.1]; omega),
      getD_oob _ _ _ (by rw [h₂.1]; omega)]

theorem entry_fast (d : Dist) (hd : ShapeOK d) (m c : Nat) (hm : m < rowsCount)
    (hc : c < 9) :
    entry (next_step_fast d) (9 * m + c) = (colC c d).getD m 0 := by
  simp only [entry, base_mk m c hc, last_mk m c hc]
  rw [tower_getD d hd.1 m hm]
  interval_cases c <;> rfl

/-- The source's push-style `next_step` agrees with the structural
`next_step_fast` on every well-shaped distribution. -/
theorem next_step_eq_fast (d : Dist) (hd : ShapeOK d) :
    next_step d = next_step_fast d := by
  apply dist_ext _ _ (shape_next_step d) (shape_fast d hd)
  intro m c hm hc
  have hj : 9 * m + c < all_positions_count := by
    rw [apc_eq]; rw [rows_eq] at hm; omega
  rw [entry_next_step d _ hj, entry_fast d hd m c hm hc,
    colC_getD d hd.1 m c hm hc]
  have step1 : ((List.range all_positions_count).map fun i =>
      ((List.range 9).map fun cp =>
        if swipe_to i cp = some (9 * m + c) then entry d i else 0).sum).sum
      = ((List.range all_positions_count).map fun i =>
          if swipe_to i c = some (9 * m + c) then entry d i else 0).sum := by
    apply congrArg List.sum
    apply List.map_congr_left
    intro i _
    exact inner_collapse d i m c hc
  rw [step1, outer_window d m c hm hc]
  by_cases hbit : m &&& (1 <<< c) = 0
  · rw [if_pos hbit, if_pos hbit]
  · rw [if_neg hbit, if_neg hbit, colVal_eq_sum d hd m c hm hc hbit]

end CodePin

/-! The certified sweep: each step's distribution as a literal. -/

namespace CodePin

theorem shapeOK_spec (d : Dist) (h : shapeOK d = true) : ShapeOK d := by
  simp only [shapeOK, Bool.and_eq_true] at h
  obtain ⟨h1, h2⟩ := h
  have hlen : d.length = rowsCount := by simpa using h1
  refine ⟨hlen, fun n hn => ?_⟩
  have hmem := getD_mem d n [] (by rw [hlen]; exact hn)
  have hx := List.all_eq_true.mp h2 _ hmem
  simpa using hx

set_option maxRecDepth 40000 in
theorem shape_dist1 : ShapeOK dist1 := shapeOK_spec _ rfl

set_option maxRecDepth 40000 in
theorem shape_dist2 : ShapeOK dist2 := shapeOK_spec _ rfl

set_option maxRecDepth 40000 in
theorem shape_dist3 : ShapeOK dist3 := shapeOK_spec _ rfl

set_option maxRecDepth 40000 in
theorem shape_dist4 : ShapeOK dist4 := shapeOK_spec _ rfl

set_option maxRecDepth 40000 in
theorem shape_dist5 : ShapeOK dist5 := shapeOK_spec _ rfl

set_option maxRecDepth 40000 in
theorem shape_dist6 : ShapeOK dist6 := shapeOK_spec _ rfl

set_option maxRecDepth 40000 in
theorem shape_dist7 : ShapeOK dist7 := shapeOK_spec _ rfl

set_option maxRecDepth 40000 in
theorem shape_dist8 : ShapeOK dist8 := shapeOK_spec _ rfl

set_option maxRecDepth 40000 in
theorem shape_dist9 : ShapeOK dist9 := shapeOK_spec _ rfl

set_option maxRecDepth 40000 in
theorem init_eq : init = dist1 := eq_of_beq rfl

set_option maxRecDepth 40000 in
theorem stepDist_eq_1 : stepDist 1 = dist2 := by
  have h : stepDist 1 = next_step init := rfl
  rw [h, init_eq, next_step_eq_fast dist1 shape_dist1]
  exact eq_of_beq rfl

set_option maxRecDepth 40000 in
theorem stepDist_eq_2 : stepDist 2 = dist3 := by
  have h : stepDist 2 = next_step (stepDist 1) := rfl
  rw [h, stepDist_eq_1, next_step_eq_fast dist2 shape_dist2]
  exact eq_of_beq rfl

set_option maxRecDepth 40000 in
theorem stepDist_eq_3 : stepDist 3 = dist4 := by
  have h : stepDist 3 = next_step (stepDist 2) := rfl
  rw [h, stepDist_eq_2, next_step_eq_fast dist3 shape_dist3]
  exact eq_of_beq rfl

set_option maxRecDepth 40000 in
theorem stepDist_eq_4 : stepDist 4 = dist5 := by
  have h : stepDist 4 = next_step (stepDist 3) := rfl
  rw [h, stepDist_eq_3, next_step_eq_fast dist4 shape_dist4]
  exact eq_of_beq rfl

set_option maxRecDepth 40000 in
theorem stepDist_eq_5 : stepDist 5 = dist6 := by
  have h : stepDist 5 = next_step (stepDist 4) := rfl
  rw [h, stepDist_eq_4, next_step_eq_fast dist5 shape_dist5]
  exact eq_of_beq rfl

set_option maxRecDepth 40000 in
theorem stepDist_eq_6 : stepDist 6 = dist7 := by
  have h : stepDist 6 = next_step (stepDist 5) := rfl
  rw [h, stepDist_eq_5, next_step_eq_fast dist6 shape_dist6]
  exact eq_of_beq rfl

set_option maxRecDepth 40000 in
theorem stepDist_eq_7 : stepDist 7 = dist8 := by
  have h : stepDist 7 = next_step (stepDist 6) := rfl
  rw [h, stepDist_eq_6, next_step_eq_fast dist7 shape_dist7]
  exact eq_of_beq rfl

set_option maxRecDepth 40000 in
theorem stepDist_eq_8 : stepDist 8 = dist9 := by
  have h : stepDist 8 = next_step (stepDist 7) := rfl
  rw [h, stepDist_eq_7, next_step_eq_fast dist8 shape_dist8]
  exact eq_of_beq rfl

end CodePin

/-! Additional bounded facts and bridges for the claims. -/

namespace CodePin

theorem cof_stable : ∀ (n f : Nat), n ≤ f →
    count_ones_fuel f n = count_ones_fuel n n := by
  intro n
  induction n using Nat.strong_induction_on with
  | _ n ih =>
    intro f hf
    match n, f with
    | 0, 0 => rfl
    | 0, g + 1 => rfl
    | m + 1, g + 1 =>
      show (m + 1) % 2 + count_ones_fuel g ((m + 1) / 2)
        = (m + 1) % 2 + count_ones_fuel m ((m + 1) / 2)
      have hd : (m + 1) / 2 < m + 1 := by omega
      have hg : (m + 1) / 2 ≤ g := by omega
      have hm : (m + 1) / 2 ≤ m := by omega
      rw [ih _ hd g hg, ih _ hd m hm]

theorem count_ones_eq (n : Nat) (h : n ≠ 0) :
    count_ones n = n % 2 + count_ones (n / 2) := by
  match n, h with
  | m + 1, _ =>
    show (m + 1) % 2 + count_ones_fuel m ((m + 1) / 2) = _
    rw [cof_stable ((m + 1) / 2) m (by omega)]
    rfl

set_option maxRecDepth 40000 in
theorem bitsTable_shape_bool : (bitsTable.all fun r => r.length == 9) = true := rfl

theorem bitsTable_shape (n : Nat) (hn : n < rowsCount) :
    (bitsTable.getD n []).length = 9 := by
  have hmem := getD_mem bitsTable n [] (by rw [bitsTable_length]; exact hn)
  have hx := List.all_eq_true.mp bitsTable_shape_bool _ hmem
  simpa using hx

set_option maxRecDepth 40000 in
theorem bf6_bool :
    ((List.zipWith (fun m bits => Nat.beq (count_ones m) (popB bits))
      (List.range 512) bitsTable).all fun b => b) = true := rfl

theorem count_ones_eq_popB (m : Nat) (hm : m < 512) :
    count_ones m = popB (bitsTable.getD m []) := by
  have h₁ : m < (List.range 512).length := by simpa using hm
  have h₂ : m < bitsTable.length := by rw [bitsTable_length, rows_eq]; omega
  have h := allZip_spec _ _ _ bf6_bool m 0 [] h₁ h₂
  rw [getD_range _ _ hm] at h
  exact Nat.eq_of_beq_eq_true h

set_option maxRecDepth 40000 in
theorem popB_512 : popB (bitsTable.getD 512 []) = 0 := rfl

set_option maxRecDepth 40000 in
theorem bfor_bool :
    ((List.range rowsCount).all fun b => (List.range 9).all fun c =>
      (b &&& (1 <<< c) != 0) || ((b ||| (1 <<< c)) == b + (1 <<< c))) = true := rfl

theorem lor_eq_add (b c : Nat) (hb : b < rowsCount) (hc : c < 9)
    (h : b &&& (1 <<< c) = 0) : b ||| (1 <<< c) = b + (1 <<< c) := by
  have hx := allRange2_spec _ _ _ bfor_bool b c hb hc
  simp only [h] at hx
  simp at hx
  exact hx

set_option maxRecDepth 40000 in
theorem bfc_bool :
    ((List.range 512).all fun b => (List.range 9).all fun c =>
      (b &&& (1 <<< c) != 0) || Nat.ble (b + (1 <<< c)) 511) = true := rfl

theorem add_pow_le (b c : Nat) (hb : b < 512) (hc : c < 9)
    (h : b &&& (1 <<< c) = 0) : b + (1 <<< c) ≤ 511 := by
  have hx := allRange2_spec _ _ _ bfc_bool b c hb hc
  simp only [h] at hx
  simp at hx
  exact hx

theorem count_ones_add_pow : ∀ (c b : Nat), Nat.testBit b c = false →
    count_ones (b + 2 ^ c) = count_ones b + 1 := by
  intro c
  induction c with
  | zero =>
    intro b h
    have hb2 : b % 2 = 0 := by
      rw [Nat.testBit_zero] at h
      simpa using h
    have e0 : b + 2 ^ 0 = b + 1 := by norm_num
    have e1 : (b + 1) % 2 = 1 := by omega
    have e2 : (b + 1) / 2 = b / 2 := by omega
    rw [e0, count_ones_eq (b + 1) (by omega), e1, e2]
    by_cases hb : b = 0
    · subst hb; rfl
    · rw [count_ones_eq b hb, hb2]
      omega
  | succ c ih =>
    intro b h
    have hpow : 2 ^ (c + 1) = 2 * 2 ^ c := by ring
    have hpos : 0 < 2 ^ c := Nat.pos_pow_of_pos c (by norm_num)
    have e1 : (b + 2 ^ (c + 1)) % 2 = b % 2 := by omega
    have e2 : (b + 2 ^ (c + 1)) / 2 = b / 2 + 2 ^ c := by omega
    have hbit : Nat.testBit (b / 2) c = false := by
      rw [← Nat.testBit_succ]
      exact h
    rw [count_ones_eq (b + 2 ^ (c + 1)) (by omega), e1, e2, ih (b / 2) hbit]
    by_cases hb : b = 0
    · subst hb; simp [count_ones, count_ones_fuel]
    · rw [count_ones_eq b hb]
      omega

theorem land_pow_eq_zero_iff (n c : Nat) :
    n &&& (1 <<< c) = 0 ↔ Nat.testBit n c = false := by
  rw [shl_eq, Nat.and_two_pow]
  cases hb : Nat.testBit n c
  · simp
  · simp

end CodePin

/-! Bridges used by the claims. -/

namespace CodePin

theorem swipe_none_iff (i c : Nat) (h : is_swiped i c = false) :
    swipe_to i c = none ↔ blocked i c = true := by
  simp only [swipe_to, h]
  by_cases hb : blocked i c <;> simp [hb]

theorem through_mem_bool :
    ((List.range 9).all fun a => (List.range 9).all fun b =>
      match through a b with
      | some t => decide ((a, b, t) ∈ specTable)
      | none => true) = true := rfl

theorem through_mem (a b t : Nat) (ha : a < 9) (hb : b < 9)
    (h : through a b = some t) : (a, b, t) ∈ specTable := by
  have hx := allRange2_spec _ _ _ through_mem_bool a b ha hb
  rw [h] at hx
  exact of_decide_eq_true hx

theorem spec_through : ∀ e ∈ specTable, through e.1 e.2.1 = some e.2.2 := by
  decide

theorem validate_of_fast (d : Dist) (hd : ShapeOK d) (step : Nat)
    (hstep : step ≠ 0) (h : validate_fast d step = true) :
    validate d step = true := by
  simp only [validate]
  apply List.all_eq_true.mpr
  intro i hi
  have hi4 : i < all_positions_count := List.mem_range.mp hi
  have hblt : base i < rowsCount := base_lt i hi4
  have h₁ : base i < bitsTable.length := by rw [bitsTable_length]; exact hblt
  have h₂ : base i < d.length := by rw [hd.1]; exact hblt
  simp only [validate_fast] at h
  have hrow := allZip_spec _ bitsTable d h (base i) [] [] h₁ h₂
  rcases (Bool.or_eq_true _ _).mp hrow with hz | hp
  · have hzeq : d.getD (base i) [] = z9 := eq_of_beq hz
    have hent : entry d i = 0 := by
      simp only [entry, hzeq]
      exact z9_getD _
    simp [hent]
  · have hps : popB (bitsTable.getD (base i) []) = step := eq_of_beq hp
    by_cases hb512 : base i < 512
    · have hsp : swiped_points i = step := by
        simp only [swiped_points]
        rw [count_ones_eq_popB (base i) hb512, hps]
      simp [hsp]
    · exfalso
      have hb : base i = 512 := by rw [rows_eq] at hblt; omega
      rw [hb, popB_512] at hps
      exact hstep hps.symm

theorem sum_map_length : ∀ (e : Dist), (∀ r ∈ e, r.length = 9) →
    (e.map List.length).sum = 9 * e.length := by
  intro e
  induction e with
  | nil => intro _; simp
  | cons r t ih =>
    intro h
    have hr := h r (List.mem_cons_self r t)
    have ht := ih fun x hx => h x (List.mem_cons_of_mem r hx)
    simp [hr, ht]
    ring

theorem num_entries_of_shape (e : Dist) (he : ShapeOK e) :
    num_entries e = all_positions_count := by
  have hmem : ∀ r ∈ e, r.length = 9 := by
    intro r hr
    obtain ⟨n, hn, he2⟩ := mem_getD e r [] hr
    rw [← he2]
    exact he.2 n (by rw [← he.1]; exact hn)
  simp only [num_entries]
  rw [sum_map_length e hmem, he.1]
  rfl

set_option maxRecDepth 40000 in
theorem bf7_bool :
    ((List.zipWith (fun m bits => (List.range 9).all fun c =>
        !((popB bits == 1) && bits.getD c false) || (m == 1 <<< c))
      (List.range rowsCount) bitsTable).all fun b => b) = true := rfl

set_option maxRecDepth 40000 in
theorem init_rows_bool :
    ((List.zipWith (fun bits row =>
        row == z9
          || ((popB bits == 1) && (row == bits.map fun b => if b then 1 else 0)))
      bitsTable dist1).all fun b => b) = true := rfl

end CodePin

/-! The claims. -/

namespace CodePin

set_option maxRecDepth 40000 in
/-- C1: the total count of valid patterns of length exactly 2 — the sum
of all counters of the distribution obtained by one application of
`next_step` to the initial distribution — equals 56, the value the
program asserts at step 2. -/
theorem C1_length2_count : current_possibilities (next_step init) = 56 := by
  have h1 : next_step init = stepDist 1 := rfl
  rw [h1, stepDist_eq_1]
  rfl

set_option maxRecDepth 40000 in
/-- C2 counterexample: the state arrays have `9 * (1 + 2^9) = 4617`
counters — already the initial distribution does — and `4617` is not the
`9 * 2^9 = 4608` the claim states. -/
theorem C2_counterexample :
    num_entries init = 4617 ∧ (4617 : Nat) ≠ 9 * 2 ^ 9 := by
  constructor
  · rw [init_eq]
    rfl
  · decide

set_option maxRecDepth 40000 in
/-- C2 (amended): every distribution array has exactly
`9 * (1 + 2^9) = 4617` counters: the initial distribution, and the output
of `next_step` on any distribution whatsoever. -/
theorem C2_sizes :
    num_entries init = 9 * (1 + 2 ^ 9)
      ∧ ∀ d : Dist, num_entries (next_step d) = 9 * (1 + 2 ^ 9) := by
  have hval : all_positions_count = 9 * (1 + 2 ^ 9) := by decide
  constructor
  · rw [← hval, init_eq]
    exact num_entries_of_shape dist1 shape_dist1
  · intro d
    rw [← hval]
    exact num_entries_of_shape _ (shape_next_step d)

/-- C2 witness: the length-2 distribution has the fixed size. -/
theorem C2_sizes_witness : num_entries (next_step init) = 9 * (1 + 2 ^ 9) :=
  C2_sizes.2 init

set_option maxRecDepth 40000 in
/-- C3 counterexample: the code blocks exactly 16 ordered pairs at length
2 (both directions of the eight constrained rows), not 14. -/
theorem C3_counterexample :
    blockedAtLengthTwo.length = 16 ∧ blockedAtLengthTwo.length ≠ 14 := by
  constructor
  · rfl
  · decide

/-- C3 (amended): for every state and every not-yet-visited candidate,
`swipe_to` returns `none` iff the ordered pair `(last_swiped, candidate)`
is one of the sixteen constrained ordered pairs of the spec's table (the
eight bidirectional rows) whose required intermediate point is not yet
visited. -/
theorem C3_blocked_iff :
    specTable.length = 16
      ∧ ∀ i c, i < all_positions_count → c < 9 → is_swiped i c = false →
          (swipe_to i c = none ↔
            ∃ e ∈ specTable, e.1 = last_swiped i ∧ e.2.1 = c
              ∧ is_swiped i e.2.2 = false) := by
  refine ⟨rfl, ?_⟩
  intro i c hi hc hsw
  rw [swipe_none_iff i c hsw]
  constructor
  · intro hbl
    simp only [blocked] at hbl
    cases ht : through (last_swiped i) c with
    | none =>
      rw [ht] at hbl
      have hbl2 : (false : Bool) = true := hbl
      exact absurd hbl2 (by decide)
    | some t =>
      rw [ht] at hbl
      have hbl2 : (!is_swiped i t) = true := hbl
      refine ⟨(last_swiped i, c, t),
        through_mem _ c t (last_lt i) hc ht, rfl, rfl, ?_⟩
      simpa using hbl2
  · rintro ⟨e, hmem, h1, h2, h3⟩
    have hth := spec_through e hmem
    rw [h1, h2] at hth
    simp only [blocked]
    rw [hth]
    show (!is_swiped i e.2.2) = true
    rw [h3]
    rfl

/-- C3 witness: from the single-point state of point 0, swiping to point
2 is refused, and the pair `(0, 2)` with unswiped intermediate 1 is in
the table. -/
theorem C3_blocked_iff_witness :
    from_point 0 < all_positions_count ∧ (2 : Nat) < 9
      ∧ is_swiped (from_point 0) 2 = false
      ∧ (swipe_to (from_point 0) 2 = none ↔
          ∃ e ∈ specTable, e.1 = last_swiped (from_point 0) ∧ e.2.1 = 2
            ∧ is_swiped (from_point 0) e.2.2 = false) :=
  ⟨by decide, by decide, by decide,
    C3_blocked_iff.2 (from_point 0) 2 (by decide) (by decide) (by decide)⟩

set_option maxRecDepth 40000 in
/-- C4: for every k in 1..9, the length-k distribution (k − 1 sequential
applications of `next_step` after the initial step) has nonzero counters
only at indices whose visited mask has population count exactly k, so the
program's `validate` assertion holds at every step. -/
theorem C4_validate (k : Nat) (hk1 : 1 ≤ k) (hk9 : k ≤ 9) :
    validate (stepDist (k - 1)) k = true
      ∧ ∀ i, i < all_positions_count → entry (stepDist (k - 1)) i ≠ 0 →
          swiped_points i = k := by
  have hv : validate (stepDist (k - 1)) k = true := by
    interval_cases k
    · show validate (stepDist 0) 1 = true
      rw [show stepDist 0 = init from rfl, init_eq]
      exact validate_of_fast dist1 shape_dist1 1 (by decide) rfl
    · show validate (stepDist 1) 2 = true
      rw [stepDist_eq_1]
      exact validate_of_fast dist2 shape_dist2 2 (by decide) rfl
    · show validate (stepDist 2) 3 = true
      rw [stepDist_eq_2]
      exact validate_of_fast dist3 shape_dist3 3 (by decide) rfl
    · show validate (stepDist 3) 4 = true
      rw [stepDist_eq_3]
      exact validate_of_fast dist4 shape_dist4 4 (by decide) rfl
    · show validate (stepDist 4) 5 = true
      rw [stepDist_eq_4]
      exact validate_of_fast dist5 shape_dist5 5 (by decide) rfl
    · show validate (stepDist 5) 6 = true
      rw [stepDist_eq_5]
      exact validate_of_fast dist6 shape_dist6 6 (by decide) rfl
    · show validate (stepDist 6) 7 = true
      rw [stepDist_eq_6]
      exact validate_of_fast dist7 shape_dist7 7 (by decide) rfl
    · show validate (stepDist 7) 8 = true
      rw [stepDist_eq_7]
      exact validate_of_fast dist8 shape_dist8 8 (by decide) rfl
    · show validate (stepDist 8) 9 = true
      rw [stepDist_eq_8]
      exact validate_of_fast dist9 shape_dist9 9 (by decide) rfl
  refine ⟨hv, ?_⟩
  intro i hi hne
  simp only [validate] at hv
  have hx := List.all_eq_true.mp hv i (List.mem_range.mpr hi)
  rcases (Bool.or_eq_true _ _).mp hx with h0 | hs
  · exact absurd (eq_of_beq h0) hne
  · exact eq_of_beq hs

/-- C4 witness: the program's assertion holds at step 2. -/
theorem C4_validate_witness :
    1 ≤ 2 ∧ 2 ≤ 9 ∧ validate (stepDist 1) 2 = true :=
  ⟨by decide, by decide, (C4_validate 2 (by decide) (by decide)).1⟩

/-- C5: a successful `swipe_to` returns the state whose visited mask is
the source's with exactly the candidate's bit added (one more set bit)
and whose last point is the candidate. -/
theorem C5_success_shape (i c j : Nat) (hi : i < all_positions_count)
    (hc : c < 9) (h : swipe_to i c = some j) :
    is_swiped i c = false
      ∧ base j = base i ||| (1 <<< c)
      ∧ last_swiped j = c
      ∧ swiped_points j = swiped_points i + 1 := by
  obtain ⟨h1, _, h3⟩ := (swipe_some i c j).mp h
  have hland : base i &&& (1 <<< c) = 0 := by
    simp only [is_swiped] at h1
    simpa using h1
  have hblt : base i < rowsCount := base_lt i hi
  have hbj : base j = base i + (1 <<< c) := by
    simp only [base] at h3 ⊢
    omega
  refine ⟨h1, ?_, ?_, ?_⟩
  · rw [hbj, lor_eq_add (base i) c hblt hc hland]
  · simp only [base] at h3
    simp only [last_swiped]
    omega
  · simp only [swiped_points]
    rw [hbj, shl_eq]
    exact count_ones_add_pow c (base i) ((land_pow_eq_zero_iff _ c).mp hland)

/-- C5 witness: swiping from the single-point state of point 0 to point 1
gives state 28 with mask `{0, 1}` and last point 1. -/
theorem C5_success_shape_witness :
    from_point 0 < all_positions_count ∧ (1 : Nat) < 9
      ∧ swipe_to (from_point 0) 1 = some 28
      ∧ (is_swiped (from_point 0) 1 = false
          ∧ base 28 = base (from_point 0) ||| (1 <<< 1)
          ∧ last_swiped 28 = 1
          ∧ swiped_points 28 = swiped_points (from_point 0) + 1) :=
  ⟨by decide, by decide, by decide,
    C5_success_shape (from_point 0) 1 28 (by decide) (by decide) (by decide)⟩

/-- C6: for every index below `9 * 2^9`, re-encoding the decoded
components reproduces the index: `last_swiped i + 9 * base i = i`. -/
theorem C6_decode_encode (i : Nat) (_h : i < 9 * 2 ^ 9) :
    last_swiped i + 9 * base i = i := by
  simp only [base, last_swiped]
  omega

/-- C6 witness at index 100. -/
theorem C6_decode_encode_witness :
    100 < 9 * 2 ^ 9 ∧ last_swiped 100 + 9 * base 100 = 100 :=
  ⟨by decide, C6_decode_encode 100 (by decide)⟩

/-- C7: if the candidate point's bit is already set in the visited mask,
`swipe_to` returns `none`. -/
theorem C7_revisit_none (i c : Nat) (h : is_swiped i c = true) :
    swipe_to i c = none := by
  simp [swipe_to, h]

/-- C7 witness: the single-point state of point 3 cannot swipe to 3. -/
theorem C7_revisit_none_witness :
    is_swiped (from_point 3) 3 = true ∧ swipe_to (from_point 3) 3 = none :=
  ⟨by decide, C7_revisit_none (from_point 3) 3 (by decide)⟩

set_option maxRecDepth 40000 in
/-- C8: `from_point p` is the state with visited mask `1 <<< p` and last
point `p`; the initial distribution carries counter 1 exactly at these
nine states and 0 everywhere else, and its total is 9. -/
theorem C8_init_states :
    (∀ p, p < 9 → base (from_point p) = 1 <<< p ∧ last_swiped (from_point p) = p)
      ∧ (∀ p, p < 9 → entry init (from_point p) = 1)
      ∧ (∀ i, i < all_positions_count → (∀ p, p < 9 → i ≠ from_point p) →
          entry init i = 0)
      ∧ current_possibilities init = 9 := by
  refine ⟨?_, ?_, ?_, ?_⟩
  · intro p hp
    constructor
    · simp only [from_point, index_of_point, base]
      omega
    · simp only [from_point, index_of_point, last_swiped]
      omega
  · intro p hp
    rw [init_eq]
    interval_cases p <;> rfl
  · intro i hi hnot
    rw [init_eq]
    have hblt : base i < rowsCount := base_lt i hi
    have hlast : last_swiped i < 9 := last_lt i
    have h₁ : base i < bitsTable.length := by rw [bitsTable_length]; exact hblt
    have h₂ : base i < dist1.length := by rw [shape_dist1.1]; exact hblt
    have hrow := allZip_spec _ bitsTable dist1 init_rows_bool (base i) [] [] h₁ h₂
    rcases (Bool.or_eq_true _ _).mp hrow with hz | hstruct
    · have hzeq : dist1.getD (base i) [] = z9 := eq_of_beq hz
      simp only [entry, hzeq]
      exact z9_getD _
    · rw [Bool.and_eq_true] at hstruct
      obtain ⟨hpop, hroweq⟩ := hstruct
      have hroweq2 : dist1.getD (base i) []
          = (bitsTable.getD (base i) []).map fun b => if b then 1 else 0 :=
        eq_of_beq hroweq
      have hbl : last_swiped i < (bitsTable.getD (base i) []).length := by
        rw [bitsTable_shape _ hblt]
        exact hlast
      simp only [entry, hroweq2]
      rw [getD_map _ _ _ false _ hbl]
      by_cases hbit : (bitsTable.getD (base i) []).getD (last_swiped i) false
      · exfalso
        have hx := allZip_spec _ _ _ bf7_bool (base i) 0 []
          (by simpa using hblt) h₁
        rw [getD_range _ _ hblt] at hx
        have hy := List.all_eq_true.mp hx (last_swiped i) (List.mem_range.mpr hlast)
        rw [hbit] at hy
        rw [hpop] at hy
        have hm : base i = 1 <<< last_swiped i := by
          have hy2 : (base i == 1 <<< last_swiped i) = true := by
            simpa using hy
          exact eq_of_beq hy2
        apply hnot (last_swiped i) hlast
        simp only [from_point, index_of_point]
        simp only [base, last_swiped] at hm ⊢
        omega
      · have hbit2 : (bitsTable.getD (base i) []).getD (last_swiped i) false = false := by
          simpa using hbit
        rw [hbit2]
        rfl
  · rw [init_eq]
    rfl

/-- C8 witness: point 4's single-point state, and the zero entry at
index 0. -/
theorem C8_init_states_witness :
    ((4 : Nat) < 9 ∧ base (from_point 4) = 1 <<< 4
       ∧ last_swiped (from_point 4) = 4 ∧ entry init (from_point 4) = 1)
      ∧ ((0 : Nat) < all_positions_count ∧ entry init 0 = 0) :=
  ⟨⟨by decide, (C8_init_states.1 4 (by decide)).1,
      (C8_init_states.1 4 (by decide)).2, C8_init_states.2.1 4 (by decide)⟩,
    ⟨by decide, C8_init_states.2.2.1 0 (by decide) (by decide)⟩⟩

set_option maxRecDepth 40000 in
/-- C9: a state with all nine points visited admits no extension, and one
more `next_step` after the length-9 distribution yields the all-zero
distribution: length 10 is never reached. -/
theorem C9_terminal :
    (∀ i, (∀ p, p < 9 → is_swiped i p = true) → ∀ c, c < 9 → swipe_to i c = none)
      ∧ next_step (stepDist 8) = statesDefault := by
  constructor
  · intro i hall c hc
    simp [swipe_to, hall c hc]
  · rw [stepDist_eq_8, next_step_eq_fast dist9 shape_dist9]
    exact eq_of_beq rfl

/-- C9 witness: the full state with last point 0 (index 4599) cannot
swipe to 5. -/
theorem C9_terminal_witness :
    (∀ p, p < 9 → is_swiped 4599 p = true) ∧ (5 : Nat) < 9
      ∧ swipe_to 4599 5 = none :=
  ⟨by decide, by decide, C9_terminal.1 4599 (by decide) 5 (by decide)⟩

set_option maxRecDepth 40000 in
/-- C10: every index of the sweep stays in bounds: `from_point` indices
and all successful `swipe_to` targets of 9-bit-mask states are below
`9 * 2^9 = 4608 < 4617`, and rows at flat indices 4608 and above stay
zero in every step's distribution. -/
theorem C10_bounds :
    (∀ p, p < 9 → from_point p < 9 * 2 ^ 9)
      ∧ (∀ i c j, i < 9 * 2 ^ 9 → c < 9 → swipe_to i c = some j → j < 9 * 2 ^ 9)
      ∧ 9 * 2 ^ 9 < all_positions_count
      ∧ (∀ k, k < 9 → ∀ i, 9 * 2 ^ 9 ≤ i → i < all_positions_count →
          entry (stepDist k) i = 0) := by
  have h29 : (9 : Nat) * 2 ^ 9 = 4608 := by norm_num
  refine ⟨?_, ?_, by decide, ?_⟩
  · intro p hp
    have hB := shl_le p hp
    simp only [from_point, index_of_point]
    omega
  · intro i c j hi hc h
    obtain ⟨h1, _, h3⟩ := (swipe_some i c j).mp h
    have hland : base i &&& (1 <<< c) = 0 := by
      simp only [is_swiped] at h1
      simpa using h1
    have hb512 : base i < 512 := by
      simp only [base]
      omega
    have hle := add_pow_le (base i) c hb512 hc hland
    omega
  · intro k hk i h48 hi
    have hb : base i = 512 := by
      simp only [base]
      rw [apc_eq] at hi
      omega
    have hrow : ∀ dk : Dist, dk.getD 512 [] = z9 → entry dk i = 0 := by
      intro dk hz
      simp only [entry, hb, hz]
      exact z9_getD _
    interval_cases k
    · rw [show stepDist 0 = init from rfl, init_eq]
      exact hrow dist1 rfl
    · rw [stepDist_eq_1]
      exact hrow dist2 rfl
    · rw [stepDist_eq_2]
      exact hrow dist3 rfl
    · rw [stepDist_eq_3]
      exact hrow dist4 rfl
    · rw [stepDist_eq_4]
      exact hrow dist5 rfl
    · rw [stepDist_eq_5]
      exact hrow dist6 rfl
    · rw [stepDist_eq_6]
      exact hrow dist7 rfl
    · rw [stepDist_eq_7]
      exact hrow dist8 rfl
    · rw [stepDist_eq_8]
      exact hrow dist9 rfl

/-- C10 witness: point 8's initial state, a concrete in-bounds swipe, and
a zero tail entry of the length-1 distribution. -/
theorem C10_bounds_witness :
    ((8 : Nat) < 9 ∧ from_point 8 < 9 * 2 ^ 9)
      ∧ (swipe_to 0 1 = some 19 ∧ 19 < 9 * 2 ^ 9)
      ∧ ((0 : Nat) < 9 ∧ 9 * 2 ^ 9 ≤ 4608 ∧ 4608 < all_positions_count
          ∧ entry (stepDist 0) 4608 = 0) :=
  ⟨⟨by decide, C10_bounds.1 8 (by decide)⟩,
    ⟨by decide, C10_bounds.2.1 0 1 19 (by decide) (by decide) (by decide)⟩,
    ⟨by decide, by decide, by decide,
      C10_bounds.2.2.2 0 (by decide) 4608 (by decide) (by decide)⟩⟩

end CodePin
